import Mathlib

/-!
Shallow embedding of the SM83-class CPU core (register file, ALU, IDU,
control unit, two buses, decode/execute state machine) from the Rust
sources, together with theorems settling the specification claims.

Machine integers are embedded as `Nat` with explicit `% 256` / `% 65536`
at the points where the Rust types truncate; Rust panics (assertion
failures, unimplemented-opcode panics, debug-mode arithmetic overflow)
are embedded as `Except Fault`.
-/

namespace GB

/-- The fatal conditions of the source: `panic!` on unrecognized opcodes or
micro-step counters, `assert!` failures, and debug-mode integer overflow. -/
inductive Fault
  | panicUnimplemented
  | assertionFailed
  | overflow
  deriving DecidableEq, Repr

/-- The `Register` enum of `register_file.rs`, in declaration order. -/
inductive Register
  | IR | IE | A | F | B | C | D | E | H | L | W | Z | PC | SP | BC | DE | HL | WZ
  deriving DecidableEq, Repr

/-- `Register::index`: the discriminant, i.e. the declaration position. -/
def Register.index : Register → Nat
  | .IR => 0
  | .IE => 1
  | .A => 2
  | .F => 3
  | .B => 4
  | .C => 5
  | .D => 6
  | .E => 7
  | .H => 8
  | .L => 9
  | .W => 10
  | .Z => 11
  | .PC => 12
  | .SP => 13
  | .BC => 14
  | .DE => 15
  | .HL => 16
  | .WZ => 17

/-- The `DATA_REGISTERS` table. -/
def DATA_REGISTERS : List Register := [.B, .C, .D, .E, .H, .L]

/-- The `REGISTER_PAIRS` table: (high, low, composite). -/
def REGISTER_PAIRS : List (Register × Register × Register) :=
  [(.B, .C, .BC), (.D, .E, .DE), (.H, .L, .HL), (.W, .Z, .WZ)]

/-- `Register::data_register`, with its `assert!(index < DATA_REGISTER_COUNT)`. -/
def Register.data_register (index : Nat) : Except Fault Register :=
  if index < 6 then .ok (DATA_REGISTERS.getD index .B) else .error .assertionFailed

/-- `Register::register_pair`, with its `assert!(index < REGISTER_PAIR_COUNT)`. -/
def Register.register_pair (index : Nat) : Except Fault Register :=
  if index < 4 then .ok ((REGISTER_PAIRS.getD index (.B, .C, .BC)).2.2)
  else .error .assertionFailed

/-- The `Flags` view over the F register byte (`flags.rs`). -/
structure Flags where
  data : Nat
  deriving DecidableEq, Repr

/-- Bit masks from `flags.rs`: Z at bit 0, N at bit 1, H at bit 2, C at bit 3. -/
def Flags.Zmask : Nat := 0b0001

def Flags.Nmask : Nat := 0b0010

def Flags.Hmask : Nat := 0b0100

def Flags.Cmask : Nat := 0b1000

def Flags.from_u8 (data : Nat) : Flags := ⟨data⟩

def Flags.to_u8 (f : Flags) : Nat := f.data

def Flags.get_z (f : Flags) : Bool := f.data &&& Flags.Zmask != 0

def Flags.get_n (f : Flags) : Bool := f.data &&& Flags.Nmask != 0

def Flags.get_h (f : Flags) : Bool := f.data &&& Flags.Hmask != 0

def Flags.get_c (f : Flags) : Bool := f.data &&& Flags.Cmask != 0

/-- `Flags::set`: `data | mask` when set, `data & !mask` (u8 complement) when unset. -/
def Flags.set (f : Flags) (mask : Nat) (v : Bool) : Flags :=
  if v then ⟨f.data ||| mask⟩ else ⟨f.data &&& (mask ^^^ 255)⟩

def Flags.set_z (f : Flags) (v : Bool) : Flags := f.set Flags.Zmask v

def Flags.set_n (f : Flags) (v : Bool) : Flags := f.set Flags.Nmask v

def Flags.set_h (f : Flags) (v : Bool) : Flags := f.set Flags.Hmask v

def Flags.set_c (f : Flags) (v : Bool) : Flags := f.set Flags.Cmask v

/-- The `Instruction` enum of `instruction.rs` (all variants). -/
inductive Instruction
  | LDR (r r2 : Register)
  | LDI (r : Register)
  | LD (r : Register)
  | LDM (r : Register)
  | LDMI
  | LDA_BC
  | LDA_DE
  | LDAM_BC
  | LDAM_DE
  | LDAD
  | LDAMD
  | LDH
  | LDH_M
  | LDH_D
  | LDH_DM
  | LDH_HLM
  | LDH_HLMM
  | LDH_HLP
  | LDH_HLPM
  | LD_RR (r : Register)
  | LD_SP
  | LD_SP_HL
  | PUSH (r : Register)
  | POP (r : Register)
  | LD_SPE
  | ADD (r : Register)
  | ADD_HL
  | ADDI
  | ADC (r : Register)
  | ADC_HL
  | ADCI
  | SUB (r : Register)
  | SUB_HL
  | SUBI
  | SBC (r : Register)
  | SBC_HL
  | SBCI
  | CP (r : Register)
  | CP_HL
  | CPI
  | INC (r : Register)
  | INC_HL
  | DEC (r : Register)
  | DEC_HL
  | AND (r : Register)
  | AND_HL
  | ANDI
  | OR (r : Register)
  | OR_HL
  | ORI
  | XOR (r : Register)
  | XOR_HL
  | XORI
  | CCF
  | SCF
  | DAA
  | CPL
  | INC_16 (r : Register)
  | DEC_16 (r : Register)
  | ADD_HL_16 (r : Register)
  | ADD_SPE
  | RLCA
  | RRCA
  | RLA
  | RRA
  | CB
  | RLC (r : Register)
  | RLC_HL
  | RRC (r : Register)
  | RRC_HL
  | RL (r : Register)
  | RL_HL
  | RR (r : Register)
  | RR_HL
  | SLA (r : Register)
  | SLA_HL
  | SRA (r : Register)
  | SRA_HL
  | SRL (r : Register)
  | SRL_HL
  | SWAP (r : Register)
  | SWAP_HL
  | BIT (b : Nat) (r : Register)
  | BIT_HL (b : Nat)
  | RES (b : Nat) (r : Register)
  | RES_HL (b : Nat)
  | SET (b : Nat) (r : Register)
  | SET_HL (b : Nat)
  | JPI
  | JP_HL
  | JP_CCI (value flag : Bool)
  | JR
  | JR_CC (value flag : Bool)
  | CALL
  | CALL_CC (value flag : Bool)
  | RET
  | RET_CC (value flag : Bool)
  | RETI
  | RST (address : Nat)
  | HALT
  | STOP
  | DI
  | EI
  | NOP

/-- The whole mutable state owned by `CPU`: the two buses (single-slot
latched signal lines, `Option`-valued), the register file's 16-byte array,
the ALU working buffer, the control unit's IME flag, and the in-flight
instruction state. -/
structure CPUState where
  data_bus : Option Nat
  address_bus : Option Nat
  regs : List Nat
  buffer : Nat
  ime : Bool
  current_instruction : Option Instruction
  instruction_counter : Nat
  skip_pc_increment : Bool

/-- `CPU::new`: zero-initialized registers, empty buses, no instruction in flight. -/
def CPU.new : CPUState :=
  { data_bus := none
    address_bus := none
    regs := List.replicate 16 0
    buffer := 0
    ime := false
    current_instruction := none
    instruction_counter := 0
    skip_pc_increment := false }

namespace RegisterFile

/-- `RegisterFile::read_u8`, with its `assert!(register.index() < Register::PC.index())`. -/
def read_u8 (s : CPUState) (register : Register) : Except Fault Nat :=
  if register.index < Register.PC.index then .ok (s.regs.getD register.index 0)
  else .error .assertionFailed

/-- `RegisterFile::write_u8`, with its assert. -/
def write_u8 (s : CPUState) (register : Register) (value : Nat) : Except Fault CPUState :=
  if register.index < Register.PC.index then
    .ok { s with regs := s.regs.set register.index value }
  else .error .assertionFailed

/-- `RegisterFile::read_u16`: PC/SP from two consecutive bytes, composites
recomposed as `(high << 8) | low` from the constituent byte registers. -/
def read_u16 (s : CPUState) (register : Register) : Except Fault Nat :=
  if register.index ≥ Register.PC.index then
    if register.index < Register.BC.index then
      let i := 2 * register.index - Register.PC.index
      .ok ((s.regs.getD (i + 1) 0 <<< 8) ||| s.regs.getD i 0)
    else do
      let p := REGISTER_PAIRS.getD (register.index - Register.BC.index) (.B, .C, .BC)
      let high ← read_u8 s p.1
      let low ← read_u8 s p.2.1
      .ok ((high <<< 8) ||| low)
  else .error .assertionFailed

/-- `RegisterFile::read_u16_low` (`as u8` cast of the 16-bit value). -/
def read_u16_low (s : CPUState) (register : Register) : Except Fault Nat := do
  .ok ((← read_u16 s register) % 256)

/-- `RegisterFile::read_u16_high` (`(v >> 8) as u8`). -/
def read_u16_high (s : CPUState) (register : Register) : Except Fault Nat := do
  .ok (((← read_u16 s register) >>> 8) % 256)

/-- `RegisterFile::write_u16`: decomposes into the two constituent bytes. -/
def write_u16 (s : CPUState) (register : Register) (value : Nat) : Except Fault CPUState :=
  if register.index ≥ Register.PC.index then
    if register.index < Register.BC.index then
      let i := 2 * register.index - Register.PC.index
      .ok { s with regs := ((s.regs.set (i + 1) ((value >>> 8) % 256)).set i (value % 256)) }
    else do
      let p := REGISTER_PAIRS.getD (register.index - Register.BC.index) (.B, .C, .BC)
      let s ← write_u8 s p.1 ((value >>> 8) % 256)
      write_u8 s p.2.1 (value % 256)
  else .error .assertionFailed

/-- `RegisterFile::read_data_bus`: empty bus falls back to 0 (with a printed
diagnostic in the source), then writes into the named 8-bit register; the
latched bus value is not consumed. -/
def read_data_bus (s : CPUState) (register : Register) : Except Fault CPUState :=
  write_u8 s register (s.data_bus.getD 0)

/-- `RegisterFile::write_data_bus`: pushes a register's byte onto the data bus. -/
def write_data_bus (s : CPUState) (register : Register) : Except Fault CPUState := do
  let data ← read_u8 s register
  .ok { s with data_bus := some data }

/-- `RegisterFile::write_address_bus`: pushes a 16-bit register onto the address bus. -/
def write_address_bus (s : CPUState) (register : Register) : Except Fault CPUState := do
  let data ← read_u16 s register
  .ok { s with address_bus := some data }

/-- `RegisterFile::flags`: a flags view over the F byte (`read_u8(F)` always
passes its assert, F having index 3). -/
def flags (s : CPUState) : Flags := Flags.from_u8 (s.regs.getD Register.F.index 0)

/-- Modelled from the spec: `RegisterFile::write_u16_low` is absent from
`src` (only `ALU::write_register_pair_low` calls it); per the register-file
and ALU sections it stores one byte as the low half of a 16-bit register,
leaving the high byte unchanged. -/
def write_u16_low (s : CPUState) (register : Register) (value : Nat) : Except Fault CPUState := do
  let old ← read_u16 s register
  write_u16 s register ((old &&& 0xFF00) ||| (value % 256))

/-- Modelled from the spec: `RegisterFile::write_u16_high` is absent from
`src` (only `ALU::write_register_pair_high` calls it); it stores one byte as
the high half of a 16-bit register, leaving the low byte unchanged. -/
def write_u16_high (s : CPUState) (register : Register) (value : Nat) : Except Fault CPUState := do
  let old ← read_u16 s register
  write_u16 s register (((value % 256) <<< 8) ||| (old &&& 0x00FF))

end RegisterFile

namespace ALU

/-- The loop body state of `ALU::add_with_bitwise_carry` after the first `n`
iterations: (result, carry_bits, carry), starting from carry-in `c`. -/
def add_loop (a b c : Nat) : Nat → Nat × Nat × Nat
  | 0 => (0, 0, c)
  | i + 1 =>
    let st := add_loop a b c i
    let bit_a := (a >>> i) &&& 1
    let bit_b := (b >>> i) &&& 1
    let sum := bit_a + bit_b + st.2.2
    let bit_result := sum &&& 1
    let carry := (sum >>> 1) &&& 1
    (st.1 ||| (bit_result <<< i),
     if carry = 1 then st.2.1 ||| (1 <<< i) else st.2.1,
     carry)

/-- `ALU::add_with_bitwise_carry`: the 8-step ripple adder returning
(result, carry bitmap). -/
def add_with_bitwise_carry (a b : Nat) (c : Bool) : Nat × Nat :=
  let st := add_loop a b (if c then 1 else 0) 8
  (st.1, st.2.1)

/-- The loop body state of `ALU::sub_with_bitwise_carry` after the first `n`
iterations: (result, carry_bits, carry/borrow). -/
def sub_loop (a b c : Nat) : Nat → Nat × Nat × Nat
  | 0 => (0, 0, c)
  | i + 1 =>
    let st := sub_loop a b c i
    let bit_a := (a >>> i) &&& 1
    let bit_b := (b >>> i) &&& 1
    let diff : Int := (bit_a : Int) - (bit_b : Int) - (st.2.2 : Int)
    if diff < 0 then
      (st.1 ||| (((diff + 2).toNat &&& 1) <<< i), st.2.1 ||| (1 <<< i), 1)
    else
      (st.1 ||| ((diff.toNat &&& 1) <<< i), st.2.1, 0)

/-- `ALU::sub_with_bitwise_carry`: the 8-step ripple subtractor. -/
def sub_with_bitwise_carry (a b : Nat) (c : Bool) : Nat × Nat :=
  let st := sub_loop a b (if c then 1 else 0) 8
  (st.1, st.2.1)

/-- `ALU::read_data_register`: register file byte into the working buffer. -/
def read_data_register (s : CPUState) (register : Register) : Except Fault CPUState := do
  let v ← RegisterFile.read_u8 s register
  .ok { s with buffer := v }

/-- `ALU::read_register_pair_low`. -/
def read_register_pair_low (s : CPUState) (register : Register) : Except Fault CPUState := do
  let v ← RegisterFile.read_u16_low s register
  .ok { s with buffer := v }

/-- `ALU::read_register_pair_high`. -/
def read_register_pair_high (s : CPUState) (register : Register) : Except Fault CPUState := do
  let v ← RegisterFile.read_u16_high s register
  .ok { s with buffer := v }

/-- `ALU::write_data_register`: buffer into a register file byte. -/
def write_data_register (s : CPUState) (register : Register) : Except Fault CPUState :=
  RegisterFile.write_u8 s register s.buffer

/-- `ALU::write_register_pair_low`. -/
def write_register_pair_low (s : CPUState) (register : Register) : Except Fault CPUState :=
  RegisterFile.write_u16_low s register s.buffer

/-- `ALU::write_register_pair_high`. -/
def write_register_pair_high (s : CPUState) (register : Register) : Except Fault CPUState :=
  RegisterFile.write_u16_high s register s.buffer

/-- `ALU::write_data_bus`: buffer onto the data bus. -/
def write_data_bus (s : CPUState) : CPUState :=
  { s with data_bus := some s.buffer }

/-- `ALU::addi_register_16_low`: first pass of the SP-relative signed add,
setting Z false and N false, H/C from carry bits 3/7. -/
def addi_register_16_low (s : CPUState) (register : Register) : Except Fault CPUState := do
  let low ← RegisterFile.read_u16_low s register
  let rc := add_with_bitwise_carry s.buffer low false
  let s := { s with buffer := rc.1 }
  let flags := ((((RegisterFile.flags s).set_z false).set_n false).set_h
    (((rc.2 >>> 3) &&& 0x1) == 0x1)).set_c (((rc.2 >>> 7) &&& 0x1) == 0x1)
  RegisterFile.write_u8 s .F flags.to_u8

/-- `ALU::addi_register_16_high`: second pass, adding the carry flag and the
sign-extension byte of the operand via wrapping u8 additions. -/
def addi_register_16_high (s : CPUState) (register : Register) : Except Fault CPUState := do
  let adj := if (s.buffer >>> 7) == 0 then 0x00 else 0xFF
  let flags := RegisterFile.flags s
  let high ← RegisterFile.read_u16_high s register
  .ok { s with buffer := ((high + (if flags.get_c then 1 else 0)) % 256 + adj) % 256 }

/-- `ALU::add_register_16_low`: first pass of `ADD HL, rr` (leaves Z alone). -/
def add_register_16_low (s : CPUState) (register : Register) : Except Fault CPUState := do
  let low ← RegisterFile.read_u16_low s register
  let rc := add_with_bitwise_carry s.buffer low false
  let s := { s with buffer := rc.1 }
  let flags := (((RegisterFile.flags s).set_n false).set_h
    (((rc.2 >>> 3) &&& 0x1) == 0x1)).set_c (((rc.2 >>> 7) &&& 0x1) == 0x1)
  RegisterFile.write_u8 s .F flags.to_u8

/-- `ALU::add_register_16_high`: second pass of `ADD HL, rr` with carry-in
hard-wired true (as in the source). -/
def add_register_16_high (s : CPUState) (register : Register) : Except Fault CPUState := do
  let high ← RegisterFile.read_u16_high s register
  let rc := add_with_bitwise_carry s.buffer high true
  let s := { s with buffer := rc.1 }
  let flags := (((RegisterFile.flags s).set_n false).set_h
    (((rc.2 >>> 3) &&& 0x1) == 0x1)).set_c (((rc.2 >>> 7) &&& 0x1) == 0x1)
  RegisterFile.write_u8 s .F flags.to_u8

/-- `ALU::add_register`: buffer := buffer + register (+ optional carry-in),
flags from the ripple adder. -/
def add_register (s : CPUState) (register : Register) (consider_carry : Bool) :
    Except Fault CPUState := do
  let flags := RegisterFile.flags s
  let carry := if !consider_carry then false else flags.get_c
  let operand ← RegisterFile.read_u8 s register
  let rc := add_with_bitwise_carry s.buffer operand carry
  let s := { s with buffer := rc.1 }
  let flags := ((((flags.set_z (rc.1 == 0)).set_n false).set_h
    (((rc.2 >>> 3) &&& 0x1) == 0x1)).set_c (((rc.2 >>> 7) &&& 0x1) == 0x1))
  RegisterFile.write_u8 s .F flags.to_u8

/-- `ALU::sub_register`. -/
def sub_register (s : CPUState) (register : Register) (consider_carry : Bool) :
    Except Fault CPUState := do
  let flags := RegisterFile.flags s
  let carry := if !consider_carry then false else flags.get_c
  let operand ← RegisterFile.read_u8 s register
  let rc := sub_with_bitwise_carry s.buffer operand carry
  let s := { s with buffer := rc.1 }
  let flags := ((((flags.set_z (rc.1 == 0)).set_n true).set_h
    (((rc.2 >>> 3) &&& 0x1) == 0x1)).set_c (((rc.2 >>> 7) &&& 0x1) == 0x1))
  RegisterFile.write_u8 s .F flags.to_u8

/-- `ALU::increment`: buffer + 1 through the ripple adder; updates Z/N/H
only (C untouched, as in the source). -/
def increment (s : CPUState) : Except Fault CPUState := do
  let rc := add_with_bitwise_carry s.buffer 1 false
  let s := { s with buffer := rc.1 }
  let flags := (((RegisterFile.flags s).set_z (rc.1 == 0)).set_n false).set_h
    (((rc.2 >>> 3) &&& 0x1) == 0x1)
  RegisterFile.write_u8 s .F flags.to_u8

/-- `ALU::decrement`: buffer - 1 through the ripple subtractor; the source
sets N to false here (and leaves C untouched). -/
def decrement (s : CPUState) : Except Fault CPUState := do
  let rc := sub_with_bitwise_carry s.buffer 1 false
  let s := { s with buffer := rc.1 }
  let flags := (((RegisterFile.flags s).set_z (rc.1 == 0)).set_n false).set_h
    (((rc.2 >>> 3) &&& 0x1) == 0x1)
  RegisterFile.write_u8 s .F flags.to_u8

/-- `ALU::and`. -/
def and (s : CPUState) (register : Register) : Except Fault CPUState := do
  let operand ← RegisterFile.read_u8 s register
  let result := s.buffer &&& operand
  let s := { s with buffer := result }
  let flags := ((((RegisterFile.flags s).set_z (result == 0)).set_n false).set_h true).set_c false
  RegisterFile.write_u8 s .F flags.to_u8

/-- `ALU::or`. -/
def or (s : CPUState) (register : Register) : Except Fault CPUState := do
  let operand ← RegisterFile.read_u8 s register
  let result := s.buffer ||| operand
  let s := { s with buffer := result }
  let flags := ((((RegisterFile.flags s).set_z (result == 0)).set_n false).set_h false).set_c false
  RegisterFile.write_u8 s .F flags.to_u8

/-- `ALU::xor`. -/
def xor (s : CPUState) (register : Register) : Except Fault CPUState := do
  let operand ← RegisterFile.read_u8 s register
  let result := s.buffer ^^^ operand
  let s := { s with buffer := result }
  let flags := ((((RegisterFile.flags s).set_z (result == 0)).set_n false).set_h false).set_c false
  RegisterFile.write_u8 s .F flags.to_u8

/-- `ALU::flip_carry` (CCF). -/
def flip_carry (s : CPUState) : Except Fault CPUState := do
  let flags := RegisterFile.flags s
  let flags := ((flags.set_n false).set_h false).set_c (!flags.get_c)
  RegisterFile.write_u8 s .F flags.to_u8

/-- `ALU::set_carry` (SCF). -/
def set_carry (s : CPUState) : Except Fault CPUState := do
  let flags := (((RegisterFile.flags s).set_n false).set_h false).set_c true
  RegisterFile.write_u8 s .F flags.to_u8

/-- `ALU::decimal_adjust` (DAA), exactly as in the source: on the add path
the +0x60 correction is applied when C is set or the whole buffer exceeds
0x09, then +0x06 when H is set or the low nibble exceeds 0x09; on the
subtract path -0x60 / -0x06 on C / H; finally recomputes Z and clears H. -/
def decimal_adjust (s : CPUState) : Except Fault CPUState := do
  let flags := RegisterFile.flags s
  let (buffer, flags) :=
    if !flags.get_n then
      let (b1, f1) :=
        if flags.get_c || s.buffer > 0x09 then ((s.buffer + 0x60) % 256, flags.set_c true)
        else (s.buffer, flags)
      if f1.get_h || (b1 &&& 0x0f) > 0x09 then ((b1 + 0x06) % 256, f1) else (b1, f1)
    else
      let b1 := if flags.get_c then (s.buffer + 256 - 0x60) % 256 else s.buffer
      (if flags.get_h then (b1 + 256 - 0x06) % 256 else b1, flags)
  let s := { s with buffer := buffer }
  let flags := (flags.set_z (buffer == 0)).set_h false
  RegisterFile.write_u8 s .F flags.to_u8

/-- `ALU::flip` (CPL). -/
def flip (s : CPUState) : Except Fault CPUState := do
  let s := { s with buffer := s.buffer ^^^ 255 }
  let flags := ((RegisterFile.flags s).set_n true).set_h true
  RegisterFile.write_u8 s .F flags.to_u8

/-- `ALU::rotate_left`, exactly as in the source, including its
`(buffer << 1) & replacement` combination (`&`, not `|`). -/
def rotate_left (s : CPUState) (replace_with_carry : Bool) : Except Fault CPUState := do
  let flags := RegisterFile.flags s
  let high_bit := s.buffer >>> 7
  let replacement := if replace_with_carry then (if flags.get_c then 1 else 0) else high_bit
  let s := { s with buffer := ((s.buffer <<< 1) % 256) &&& replacement }
  let flags := ((((RegisterFile.flags s).set_z (s.buffer == 0)).set_n false).set_h false).set_c
    (high_bit == 0x1)
  RegisterFile.write_u8 s .F flags.to_u8

/-- `ALU::rotate_right`, exactly as in the source, including its
`(buffer >> 1) & (replacement << 7)` combination. -/
def rotate_right (s : CPUState) (replace_with_carry : Bool) : Except Fault CPUState := do
  let flags := RegisterFile.flags s
  let low_bit := s.buffer &&& 0x1
  let replacement := if replace_with_carry then (if flags.get_c then 1 else 0) else low_bit
  let s := { s with buffer := (s.buffer >>> 1) &&& ((replacement <<< 7) % 256) }
  let flags := ((((RegisterFile.flags s).set_z (s.buffer == 0)).set_n false).set_h false).set_c
    (low_bit == 0x1)
  RegisterFile.write_u8 s .F flags.to_u8

/-- `ALU::shift_left` (SLA). -/
def shift_left (s : CPUState) : Except Fault CPUState := do
  let high_bit := s.buffer >>> 7
  let s := { s with buffer := (s.buffer <<< 1) % 256 }
  let flags := ((((RegisterFile.flags s).set_z (s.buffer == 0)).set_n false).set_h false).set_c
    (high_bit == 0x1)
  RegisterFile.write_u8 s .F flags.to_u8

/-- `ALU::shift_right` (SRA/SRL), with the source's
`(buffer >> 1) & (replacement << 7)` combination. -/
def shift_right (s : CPUState) (arithmetic : Bool) : Except Fault CPUState := do
  let low_bit := s.buffer &&& 0x1
  let replacement := if arithmetic then s.buffer >>> 7 else 0
  let s := { s with buffer := (s.buffer >>> 1) &&& ((replacement <<< 7) % 256) }
  let flags := ((((RegisterFile.flags s).set_z (s.buffer == 0)).set_n false).set_h false).set_c
    (low_bit == 0x1)
  RegisterFile.write_u8 s .F flags.to_u8

/-- Modelled from the spec: `ALU::swap` is called from `cpu.rs` but absent
from `src`; per the shift/rotate family description it swaps the buffer's
nibbles, recomputes Z from the result and clears N/H and C (there is no
shifted-out bit). -/
def swap (s : CPUState) : Except Fault CPUState := do
  let s := { s with buffer := ((s.buffer &&& 0x0f) <<< 4) ||| (s.buffer >>> 4) }
  let flags := ((((RegisterFile.flags s).set_z (s.buffer == 0)).set_n false).set_h false).set_c
    false
  RegisterFile.write_u8 s .F flags.to_u8

/-- Modelled from the spec: `ALU::test_bit` is called from `cpu.rs` but
absent from `src`; per the bit family description it sets Z to the
complement of bit `i` of the buffer and leaves the buffer unmodified. -/
def test_bit (s : CPUState) (i : Nat) : Except Fault CPUState := do
  let flags := (RegisterFile.flags s).set_z (((s.buffer >>> i) &&& 1) == 0)
  RegisterFile.write_u8 s .F flags.to_u8

/-- Modelled from the spec: `ALU::set_bit` is called from `cpu.rs` but
absent from `src`; it sets bit `i` of the buffer. -/
def set_bit (s : CPUState) (i : Nat) : Except Fault CPUState :=
  .ok { s with buffer := s.buffer ||| (1 <<< i) }

/-- Modelled from the spec: `ALU::reset_bit` is called from `cpu.rs` but
absent from `src`; it clears bit `i` of the buffer. -/
def reset_bit (s : CPUState) (i : Nat) : Except Fault CPUState :=
  .ok { s with buffer := s.buffer &&& (((1 <<< i) % 256) ^^^ 255) }

/-- Modelled from the spec: `ALU::jump_relative_add` is called from
`cpu.rs` but absent from `src`; per the relative-jump description it adds
the PC low byte to the signed 8-bit offset held in the buffer, leaves the
low-byte sum in the buffer, and returns the +1 or 0 or -1 high-byte adjustment
(carry of the low-byte addition combined with the offset's sign). -/
def jump_relative_add (s : CPUState) : Except Fault (CPUState × Int) := do
  let pcl ← RegisterFile.read_u16_low s .PC
  let sum := pcl + s.buffer
  let adjustment : Int :=
    (if sum ≥ 256 then 1 else 0) + (if s.buffer ≥ 0x80 then -1 else 0)
  .ok ({ s with buffer := sum % 256 }, adjustment)

end ALU

namespace IDU

/-- `IDU::write_into`: address bus (0 on empty, with a diagnostic) into a
16-bit register unchanged. -/
def write_into (s : CPUState) (register : Register) : Except Fault CPUState :=
  RegisterFile.write_u16 s register (s.address_bus.getD 0)

/-- `IDU::increment_into`: unchecked u16 `address + 1`, a debug overflow
fault at 0xFFFF. -/
def increment_into (s : CPUState) (register : Register) : Except Fault CPUState :=
  let address := s.address_bus.getD 0
  if address < 0xFFFF then RegisterFile.write_u16 s register (address + 1)
  else .error .overflow

/-- `IDU::decrement_into`: unchecked u16 `address - 1`, a debug overflow
fault at 0x0000. -/
def decrement_into (s : CPUState) (register : Register) : Except Fault CPUState :=
  let address := s.address_bus.getD 0
  if address > 0 then RegisterFile.write_u16 s register (address - 1)
  else .error .overflow

/-- `IDU::adjust_u8_into`: truncates the address to a byte (`as u8`), then
applies the +1 or -1 or 0 adjustment with unchecked u8 arithmetic (debug overflow
faults at 0xFF +1 and 0x00 -1); any other adjustment is the `panic!`. -/
def adjust_u8_into (s : CPUState) (register : Register) (adjustment : Int) :
    Except Fault CPUState :=
  let address := s.address_bus.getD 0 % 256
  if adjustment = 1 then
    if address = 255 then .error .overflow
    else RegisterFile.write_u8 s register (address + 1)
  else if adjustment = -1 then
    if address = 0 then .error .overflow
    else RegisterFile.write_u8 s register (address - 1)
  else if adjustment = 0 then
    RegisterFile.write_u8 s register address
  else .error .panicUnimplemented

end IDU

namespace ControlUnit

/-- `ControlUnit::enable_interrupts`. -/
def enable_interrupts (s : CPUState) : CPUState := { s with ime := true }

/-- `ControlUnit::disable_interrupts`. -/
def disable_interrupts (s : CPUState) : CPUState := { s with ime := false }

end ControlUnit

/-- `CPU::decode`: splits the IR byte into a 2-bit header and two 3-bit body
fields and walks the primary opcode table, in the source's branch order
(order matters: earlier arms shadow later ones). Unrecognized patterns are
the `panic!` fault; `Register::data_register` / `Register::register_pair`
contribute their assertion faults. -/
def decode (s : CPUState) : Except Fault Instruction := do
  let instruction ← RegisterFile.read_u8 s .IR
  let instruction_header := instruction >>> 6
  let instruction_body_1 := (instruction >>> 3) &&& 0x7
  let instruction_body_2 := instruction &&& 0x7
  match instruction_header with
  | 0b00 =>
    if instruction_body_1 == 0 && instruction_body_2 == 7 then
      .ok .RLCA
    else if instruction_body_1 == 1 && instruction_body_2 == 7 then
      .ok .RRCA
    else if instruction_body_1 == 2 && instruction_body_2 == 7 then
      .ok .RLA
    else if instruction_body_1 == 3 && instruction_body_2 == 7 then
      .ok .RRA
    else if (instruction_body_1 &&& 0x1) == 0 && instruction_body_2 == 3 then
      .ok (.INC_16 (← Register.register_pair (instruction_body_1 >>> 1)))
    else if (instruction_body_1 &&& 0x1) == 1 && instruction_body_2 == 3 then
      .ok (.DEC_16 (← Register.register_pair (instruction_body_1 >>> 1)))
    else if (instruction_body_1 &&& 0x1) == 1 && instruction_body_2 == 1 then
      .ok (.ADD_HL_16 (← Register.register_pair (instruction_body_1 >>> 1)))
    else if instruction_body_1 == 4 && instruction_body_2 == 7 then
      .ok .DAA
    else if instruction_body_1 == 5 && instruction_body_2 == 7 then
      .ok .CPL
    else if instruction_body_1 == 7 && instruction_body_2 == 7 then
      .ok .CCF
    else if instruction_body_1 == 6 && instruction_body_2 == 7 then
      .ok .SCF
    else if instruction_body_1 < 6 && instruction_body_2 == 4 then
      .ok (.INC (← Register.data_register instruction_body_1))
    else if instruction_body_1 == 6 && instruction_body_2 == 4 then
      .ok .INC_HL
    else if instruction_body_1 < 6 && instruction_body_2 == 5 then
      .ok (.DEC (← Register.data_register instruction_body_1))
    else if instruction_body_1 == 6 && instruction_body_2 == 5 then
      .ok .DEC_HL
    else if instruction_body_1 == 1 && instruction_body_2 == 0 then
      .ok .LD_SP
    else if (instruction_body_1 &&& 0x1) == 0 && instruction_body_2 == 1 then
      .ok (.LD_RR (← Register.register_pair (instruction_body_1 >>> 1)))
    else if instruction_body_1 == 0 && instruction_body_2 == 2 then
      .ok .LDAM_BC
    else if instruction_body_1 == 1 && instruction_body_2 == 2 then
      .ok .LDA_BC
    else if instruction_body_1 == 2 && instruction_body_2 == 2 then
      .ok .LDAM_DE
    else if instruction_body_1 == 3 && instruction_body_2 == 2 then
      .ok .LDA_DE
    else if instruction_body_1 == 4 && instruction_body_2 == 2 then
      .ok .LDH_HLPM
    else if instruction_body_1 == 5 && instruction_body_2 == 2 then
      .ok .LDH_HLP
    else if instruction_body_1 == 6 && instruction_body_2 == 2 then
      .ok .LDH_HLMM
    else if instruction_body_1 == 7 && instruction_body_2 == 2 then
      .ok .LDH_HLM
    else if instruction_body_1 == 6 && instruction_body_2 == 6 then
      .ok .LDMI
    else if instruction_body_2 == 6 then
      .ok (.LDI (← Register.data_register instruction_body_1))
    else if instruction_body_1 == 0 && instruction_body_2 == 0 then
      .ok .NOP
    else if instruction_body_1 == 3 && instruction_body_2 == 0 then
      .ok .JR
    else if instruction_body_1 ≥ 4 && instruction_body_2 == 0 then
      .ok (.JR_CC (((instruction_body_1 - 4) &&& 0x1) == 0x1)
        ((((instruction_body_1 - 4) >>> 1) &&& 0x1) == 0x1))
    else if instruction_body_1 == 2 && instruction_body_2 == 0 then
      .ok .STOP
    else
      .error .panicUnimplemented
  | 0b01 =>
    if instruction_body_1 < 6 && instruction_body_2 < 6 then
      .ok (.LDR (← Register.data_register instruction_body_1)
        (← Register.data_register instruction_body_2))
    else if instruction_body_2 == 6 then
      .ok (.LD (← Register.data_register instruction_body_1))
    else if instruction_body_1 == 6 then
      .ok (.LDM (← Register.data_register instruction_body_2))
    else if instruction_body_1 == 6 && instruction_body_2 == 6 then
      .ok .HALT
    else
      .error .panicUnimplemented
  | 0b10 =>
    if instruction_body_1 == 4 && instruction_body_2 < 6 then
      .ok (.AND (← Register.data_register instruction_body_2))
    else if instruction_body_1 == 4 && instruction_body_2 == 6 then
      .ok .AND_HL
    else if instruction_body_1 == 6 && instruction_body_2 < 6 then
      .ok (.OR (← Register.data_register instruction_body_2))
    else if instruction_body_1 == 6 && instruction_body_2 == 6 then
      .ok .OR_HL
    else if instruction_body_1 == 5 && instruction_body_2 < 6 then
      .ok (.XOR (← Register.data_register instruction_body_2))
    else if instruction_body_1 == 5 && instruction_body_2 == 6 then
      .ok .XOR_HL
    else if instruction_body_1 == 7 && instruction_body_2 < 6 then
      .ok (.CP (← Register.data_register instruction_body_2))
    else if instruction_body_1 == 7 && instruction_body_2 == 6 then
      .ok .CP_HL
    else if instruction_body_1 == 1 && instruction_body_2 == 6 then
      .ok .ADC_HL
    else if instruction_body_1 == 1 && instruction_body_2 < 6 then
      .ok (.ADC (← Register.data_register instruction_body_2))
    else if instruction_body_1 == 0 && instruction_body_2 < 6 then
      .ok (.ADD (← Register.data_register instruction_body_2))
    else if instruction_body_1 == 0 && instruction_body_2 == 6 then
      .ok .ADD_HL
    else if instruction_body_1 == 3 && instruction_body_2 == 6 then
      .ok .SBC_HL
    else if instruction_body_1 == 3 && instruction_body_2 < 6 then
      .ok (.SBC (← Register.data_register instruction_body_2))
    else if instruction_body_1 == 2 && instruction_body_2 < 6 then
      .ok (.SUB (← Register.data_register instruction_body_2))
    else if instruction_body_1 == 2 && instruction_body_2 == 6 then
      .ok .SUB_HL
    else
      .error .panicUnimplemented
  | 0b11 =>
    if instruction_body_1 == 1 && instruction_body_2 == 3 then
      .ok .CB
    else if instruction_body_1 == 5 && instruction_body_2 == 0 then
      .ok .ADD_SPE
    else if instruction_body_1 == 7 && instruction_body_2 == 6 then
      .ok .CPI
    else if instruction_body_1 == 0 && instruction_body_2 == 6 then
      .ok .ADDI
    else if instruction_body_1 == 2 && instruction_body_2 == 6 then
      .ok .SUBI
    else if instruction_body_1 == 1 && instruction_body_2 == 6 then
      .ok .ADCI
    else if instruction_body_1 == 3 && instruction_body_2 == 6 then
      .ok .SBCI
    else if instruction_body_1 == 4 && instruction_body_2 == 6 then
      .ok .ANDI
    else if instruction_body_1 == 6 && instruction_body_2 == 6 then
      .ok .ORI
    else if instruction_body_1 == 5 && instruction_body_2 == 6 then
      .ok .XORI
    else if instruction_body_1 == 7 && instruction_body_2 == 0 then
      .ok .LD_SPE
    else if (instruction_body_1 &&& 0x1) == 0 && instruction_body_2 == 1 then
      .ok (.POP (← Register.register_pair (instruction_body_1 >>> 1)))
    else if (instruction_body_1 &&& 0x1) == 0 && instruction_body_2 == 5 then
      .ok (.PUSH (← Register.register_pair (instruction_body_1 >>> 1)))
    else if instruction_body_1 == 7 && instruction_body_2 == 1 then
      .ok .LD_SP_HL
    else if instruction_body_1 == 7 && instruction_body_2 == 2 then
      .ok .LDAD
    else if instruction_body_1 == 6 && instruction_body_2 == 2 then
      .ok .LDH
    else if instruction_body_1 == 5 && instruction_body_2 == 2 then
      .ok .LDAMD
    else if instruction_body_1 == 4 && instruction_body_2 == 2 then
      .ok .LDH_M
    else if instruction_body_1 == 6 && instruction_body_2 == 0 then
      .ok .LDH_D
    else if instruction_body_1 == 4 && instruction_body_2 == 0 then
      .ok .LDH_DM
    else if instruction_body_1 == 0 && instruction_body_2 == 3 then
      .ok .JPI
    else if instruction_body_1 == 5 && instruction_body_2 == 1 then
      .ok .JP_HL
    else if instruction_body_1 < 4 && instruction_body_2 == 2 then
      .ok (.JP_CCI ((instruction_body_1 &&& 0x1) == 0x1)
        (((instruction_body_1 >>> 1) &&& 0x1) == 0x1))
    else if instruction_body_1 == 1 && instruction_body_2 == 5 then
      .ok .CALL
    else if instruction_body_1 < 4 && instruction_body_2 == 4 then
      .ok (.CALL_CC ((instruction_body_1 &&& 0x1) == 0x1)
        (((instruction_body_1 >>> 1) &&& 0x1) == 0x1))
    else if instruction_body_1 == 1 && instruction_body_2 == 1 then
      .ok .RET
    else if instruction_body_1 < 4 && instruction_body_2 == 0 then
      .ok (.RET_CC ((instruction_body_1 &&& 0x1) == 0x1)
        (((instruction_body_1 >>> 1) &&& 0x1) == 0x1))
    else if instruction_body_1 == 3 && instruction_body_2 == 1 then
      .ok .RETI
    else if instruction_body_2 == 7 then
      .ok (.RST (instruction_body_1 <<< 3))
    else if instruction_body_1 == 6 && instruction_body_2 == 3 then
      .ok .DI
    else if instruction_body_1 == 7 && instruction_body_2 == 3 then
      .ok .EI
    else
      .error .panicUnimplemented
  | _ => .error .panicUnimplemented

/-- `CPU::decode_cb`: the secondary (0xCB-prefixed) decode table, over the
high nibble `instruction_body_1` and low nibble `instruction_body_2`, again
in the source's branch order. -/
def decode_cb (s : CPUState) : Except Fault Instruction := do
  let instruction ← RegisterFile.read_u8 s .IR
  let instruction_body_1 := (instruction >>> 4) &&& 0xF
  let instruction_body_2 := instruction &&& 0xF
  if instruction_body_1 == 0x0 && instruction_body_2 < 0x6 then
    .ok (.RLC (← Register.data_register instruction_body_2))
  else if instruction_body_1 == 0x0 && instruction_body_2 == 0x6 then
    .ok .RLC_HL
  else if instruction_body_1 == 0x0 && instruction_body_2 == 0x7 then
    .ok (.RLC .A)
  else if instruction_body_1 == 0x0 && instruction_body_2 < 0xE then
    .ok (.RRC (← Register.data_register (instruction_body_2 - 0x8)))
  else if instruction_body_1 == 0x0 && instruction_body_2 == 0xE then
    .ok .RRC_HL
  else if instruction_body_1 == 0x0 && instruction_body_2 == 0xF then
    .ok (.RRC .A)
  else if instruction_body_1 == 0x1 && instruction_body_2 < 0x6 then
    .ok (.RL (← Register.data_register instruction_body_2))
  else if instruction_body_1 == 0x1 && instruction_body_2 == 0x6 then
    .ok .RL_HL
  else if instruction_body_1 == 0x1 && instruction_body_2 == 0x7 then
    .ok (.RL .A)
  else if instruction_body_1 == 0x1 && instruction_body_2 < 0xE then
    .ok (.RR (← Register.data_register (instruction_body_2 - 0x8)))
  else if instruction_body_1 == 0x1 && instruction_body_2 == 0xE then
    .ok .RR_HL
  else if instruction_body_1 == 0x1 && instruction_body_2 == 0xF then
    .ok (.RR .A)
  else if instruction_body_1 == 0x2 && instruction_body_2 < 0x6 then
    .ok (.SLA (← Register.data_register instruction_body_2))
  else if instruction_body_1 == 0x2 && instruction_body_2 == 0x6 then
    .ok .SLA_HL
  else if instruction_body_1 == 0x2 && instruction_body_2 == 0x7 then
    .ok (.SLA .A)
  else if instruction_body_1 == 0x2 && instruction_body_2 < 0xE then
    .ok (.SRA (← Register.data_register (instruction_body_2 - 0x8)))
  else if instruction_body_1 == 0x2 && instruction_body_2 == 0xE then
    .ok .SRA_HL
  else if instruction_body_1 == 0x2 && instruction_body_2 == 0xF then
    .ok (.SRA .A)
  else if instruction_body_1 == 0x3 && instruction_body_2 < 0xE then
    .ok (.SRL (← Register.data_register instruction_body_2))
  else if instruction_body_1 == 0x3 && instruction_body_2 == 0xE then
    .ok .SRL_HL
  else if instruction_body_1 == 0x3 && instruction_body_2 == 0xF then
    .ok (.SRL .A)
  else if instruction_body_1 == 0x3 && instruction_body_2 < 0x6 then
    .ok (.SWAP (← Register.data_register instruction_body_2))
  else if instruction_body_1 == 0x3 && instruction_body_2 == 0x6 then
    .ok .SWAP_HL
  else if instruction_body_1 == 0x3 && instruction_body_2 == 0x7 then
    .ok (.SWAP .A)
  else if instruction_body_1 ≥ 0x4 then
    let bit_idx := 2 * (instruction_body_1 - 0x4) + (if instruction_body_2 ≥ 0x8 then 1 else 0)
    if (instruction_body_2 &&& 0x7) < 0x6 then
      .ok (.BIT bit_idx (← Register.data_register (instruction_body_2 &&& 0x7)))
    else if (instruction_body_2 &&& 0x7) == 0x6 then
      .ok (.BIT_HL bit_idx)
    else if (instruction_body_2 &&& 0x7) == 0x7 then
      .ok (.BIT bit_idx .A)
    else
      .error .panicUnimplemented
  else if instruction_body_1 ≥ 0x8 then
    let bit_idx := 2 * (instruction_body_1 - 0x8) + (if instruction_body_2 ≥ 0x8 then 1 else 0)
    if (instruction_body_2 &&& 0x7) < 0x6 then
      .ok (.RES bit_idx (← Register.data_register (instruction_body_2 &&& 0x7)))
    else if (instruction_body_2 &&& 0x7) == 0x6 then
      .ok (.RES_HL bit_idx)
    else if (instruction_body_2 &&& 0x7) == 0x7 then
      .ok (.RES bit_idx .A)
    else
      .error .panicUnimplemented
  else if instruction_body_1 ≥ 0xC then
    let bit_idx := 2 * (instruction_body_1 - 0xC) + (if instruction_body_2 ≥ 0x8 then 1 else 0)
    if (instruction_body_2 &&& 0x7) < 0x6 then
      .ok (.SET bit_idx (← Register.data_register (instruction_body_2 &&& 0x7)))
    else if (instruction_body_2 &&& 0x7) == 0x6 then
      .ok (.SET_HL bit_idx)
    else if (instruction_body_2 &&& 0x7) == 0x7 then
      .ok (.SET bit_idx .A)
    else
      .error .panicUnimplemented
  else
    .error .panicUnimplemented

/-- `CPU::execute`: one micro-step of the current instruction, keyed by
`instruction_counter`; a counter value with no defined procedure is the
micro-step desynchronization `panic!`. Transcribed arm by arm from
`cpu.rs`. -/
def execute (s : CPUState) (current_instruction : Instruction) : Except Fault CPUState :=
  match current_instruction with
  | .LDR r r2 => do
    let s ← ALU.read_data_register s r
    let s ← ALU.write_data_register s r2
    .ok { s with current_instruction := none }
  | .LDI r =>
    match s.instruction_counter with
    | 0 => do
      let s ← RegisterFile.read_data_bus s .Z
      .ok { s with instruction_counter := s.instruction_counter + 1 }
    | 1 => do
      let s ← ALU.read_data_register s .Z
      let s ← ALU.write_data_register s r
      .ok { s with current_instruction := none }
    | _ => .error .panicUnimplemented
  | .LD r =>
    match s.instruction_counter with
    | 0 => do
      let s ← RegisterFile.write_address_bus s .HL
      let s ← RegisterFile.read_data_bus s .Z
      .ok { s with skip_pc_increment := true,
                   instruction_counter := s.instruction_counter + 1 }
    | 1 => do
      let s ← ALU.read_data_register s .Z
      let s ← ALU.write_data_register s r
      .ok { s with current_instruction := none }
    | _ => .error .panicUnimplemented
  | .LDM r =>
    match s.instruction_counter with
    | 0 => do
      let s ← RegisterFile.write_address_bus s .HL
      let s ← RegisterFile.write_data_bus s r
      .ok { s with skip_pc_increment := true,
                   instruction_counter := s.instruction_counter + 1 }
    | 1 => .ok { s with current_instruction := none }
    | _ => .error .panicUnimplemented
  | .LDMI =>
    match s.instruction_counter with
    | 0 => do
      let s ← RegisterFile.read_data_bus s .Z
      .ok { s with instruction_counter := s.instruction_counter + 1 }
    | 1 => do
      let s ← RegisterFile.write_address_bus s .HL
      let s ← RegisterFile.write_data_bus s .Z
      .ok { s with skip_pc_increment := true,
                   instruction_counter := s.instruction_counter + 1 }
    | 2 => .ok { s with current_instruction := none }
    | _ => .error .panicUnimplemented
  | .LDA_BC =>
    match s.instruction_counter with
    | 0 => do
      let s ← RegisterFile.write_address_bus s .BC
      let s ← RegisterFile.read_data_bus s .Z
      .ok { s with skip_pc_increment := true,
                   instruction_counter := s.instruction_counter + 1 }
    | 1 => do
      let s ← ALU.read_data_register s .Z
      let s ← ALU.write_data_register s .A
      .ok { s with current_instruction := none }
    | _ => .error .panicUnimplemented
  | .LDA_DE =>
    match s.instruction_counter with
    | 0 => do
      let s ← RegisterFile.write_address_bus s .DE
      let s ← RegisterFile.read_data_bus s .Z
      .ok { s with skip_pc_increment := true,
                   instruction_counter := s.instruction_counter + 1 }
    | 1 => do
      let s ← ALU.read_data_register s .Z
      let s ← ALU.write_data_register s .A
      .ok { s with current_instruction := none }
    | _ => .error .panicUnimplemented
  | .LDAM_BC =>
    match s.instruction_counter with
    | 0 => do
      let s ← RegisterFile.write_address_bus s .BC
      let s ← RegisterFile.write_data_bus s .A
      .ok { s with skip_pc_increment := true,
                   instruction_counter := s.instruction_counter + 1 }
    | 1 => .ok { s with current_instruction := none }
    | _ => .error .panicUnimplemented
  | .LDAM_DE =>
    match s.instruction_counter with
    | 0 => do
      let s ← RegisterFile.write_address_bus s .DE
      let s ← RegisterFile.write_data_bus s .A
      .ok { s with skip_pc_increment := true,
                   instruction_counter := s.instruction_counter + 1 }
    | 1 => .ok { s with current_instruction := none }
    | _ => .error .panicUnimplemented
  | .LDAD =>
    match s.instruction_counter with
    | 0 => do
      let s ← RegisterFile.read_data_bus s .Z
      .ok { s with instruction_counter := s.instruction_counter + 1 }
    | 1 => do
      let s ← RegisterFile.read_data_bus s .W
      .ok { s with instruction_counter := s.instruction_counter + 1 }
    | 2 => do
      let s ← RegisterFile.write_address_bus s .WZ
      .ok { s with skip_pc_increment := true,
                   instruction_counter := s.instruction_counter + 1 }
    | 3 => do
      let s ← ALU.read_data_register s .Z
      let s ← ALU.write_data_register s .A
      .ok { s with current_instruction := none }
    | _ => .error .panicUnimplemented
  | .LDAMD =>
    match s.instruction_counter with
    | 0 => do
      let s ← RegisterFile.read_data_bus s .Z
      .ok { s with instruction_counter := s.instruction_counter + 1 }
    | 1 => do
      let s ← RegisterFile.read_data_bus s .W
      .ok { s with instruction_counter := s.instruction_counter + 1 }
    | 2 => do
      let s ← RegisterFile.write_address_bus s .WZ
      let s ← RegisterFile.write_data_bus s .A
      .ok { s with skip_pc_increment := true,
                   instruction_counter := s.instruction_counter + 1 }
    | 3 => .ok { s with current_instruction := none }
    | _ => .error .panicUnimplemented
  | .LDH =>
    match s.instruction_counter with
    | 0 => do
      let c ← RegisterFile.read_u8 s .C
      let s := { s with address_bus := some (0xFF00 ||| c) }
      let s ← RegisterFile.read_data_bus s .Z
      .ok { s with skip_pc_increment := true,
                   instruction_counter := s.instruction_counter + 1 }
    | 1 => do
      let s ← ALU.read_data_register s .Z
      let s ← ALU.write_data_register s .A
      .ok { s with current_instruction := none }
    | _ => .error .panicUnimplemented
  | .LDH_M =>
    match s.instruction_counter with
    | 0 => do
      let c ← RegisterFile.read_u8 s .C
      let s := { s with address_bus := some (0xFF00 ||| c) }
      let s ← RegisterFile.write_data_bus s .A
      .ok { s with skip_pc_increment := true,
                   instruction_counter := s.instruction_counter + 1 }
    | 1 => .ok { s with current_instruction := none }
    | _ => .error .panicUnimplemented
  | .LDH_D =>
    match s.instruction_counter with
    | 0 => do
      let s ← RegisterFile.read_data_bus s .Z
      .ok { s with instruction_counter := s.instruction_counter + 1 }
    | 1 => do
      let c ← RegisterFile.read_u8 s .Z
      let s := { s with address_bus := some (0xFF00 ||| c) }
      let s ← RegisterFile.read_data_bus s .Z
      .ok { s with skip_pc_increment := true,
                   instruction_counter := s.instruction_counter + 1 }
    | 2 => do
      let s ← ALU.read_data_register s .Z
      let s ← ALU.write_data_register s .A
      .ok { s with current_instruction := none }
    | _ => .error .panicUnimplemented
  | .LDH_DM =>
    match s.instruction_counter with
    | 0 => do
      let s ← RegisterFile.read_data_bus s .Z
      .ok { s with instruction_counter := s.instruction_counter + 1 }
    | 1 => do
      let c ← RegisterFile.read_u8 s .Z
      let s := { s with address_bus := some (0xFF00 ||| c) }
      let s ← RegisterFile.write_data_bus s .A
      .ok { s with skip_pc_increment := true,
                   instruction_counter := s.instruction_counter + 1 }
    | 2 => .ok { s with current_instruction := none }
    | _ => .error .panicUnimplemented
  | .LDH_HLM =>
    match s.instruction_counter with
    | 0 => do
      let s ← RegisterFile.write_address_bus s .HL
      let s ← RegisterFile.read_data_bus s .Z
      let s ← IDU.decrement_into s .HL
      .ok { s with skip_pc_increment := true,
                   instruction_counter := s.instruction_counter + 1 }
    | 1 => do
      let s ← ALU.read_data_register s .Z
      let s ← ALU.write_data_register s .A
      .ok { s with current_instruction := none }
    | _ => .error .panicUnimplemented
  | .LDH_HLMM =>
    match s.instruction_counter with
    | 0 => do
      let s ← RegisterFile.write_address_bus s .HL
      let s ← RegisterFile.write_data_bus s .A
      let s ← IDU.decrement_into s .HL
      .ok { s with skip_pc_increment := true,
                   instruction_counter := s.instruction_counter + 1 }
    | 1 => .ok { s with current_instruction := none }
    | _ => .error .panicUnimplemented
  | .LDH_HLP =>
    match s.instruction_counter with
    | 0 => do
      let s ← RegisterFile.write_address_bus s .HL
      let s ← RegisterFile.read_data_bus s .Z
      let s ← IDU.increment_into s .HL
      .ok { s with skip_pc_increment := true,
                   instruction_counter := s.instruction_counter + 1 }
    | 1 => do
      let s ← ALU.read_data_register s .Z
      let s ← ALU.write_data_register s .A
      .ok { s with current_instruction := none }
    | _ => .error .panicUnimplemented
  | .LDH_HLPM =>
    match s.instruction_counter with
    | 0 => do
      let s ← RegisterFile.write_address_bus s .HL
      let s ← RegisterFile.write_data_bus s .A
      let s ← IDU.increment_into s .HL
      .ok { s with skip_pc_increment := true,
                   instruction_counter := s.instruction_counter + 1 }
    | 1 => .ok { s with current_instruction := none }
    | _ => .error .panicUnimplemented
  | .LD_RR r =>
    match s.instruction_counter with
    | 0 => do
      let s ← RegisterFile.read_data_bus s .Z
      .ok { s with instruction_counter := s.instruction_counter + 1 }
    | 1 => do
      let s ← RegisterFile.read_data_bus s .W
      .ok { s with instruction_counter := s.instruction_counter + 1 }
    | 2 => do
      let wz ← RegisterFile.read_u16 s .WZ
      let s ← RegisterFile.write_u16 s r wz
      .ok { s with current_instruction := none }
    | _ => .error .panicUnimplemented
  | .LD_SP =>
    match s.instruction_counter with
    | 0 => do
      let s ← RegisterFile.read_data_bus s .Z
      .ok { s with instruction_counter := s.instruction_counter + 1 }
    | 1 => do
      let s ← RegisterFile.read_data_bus s .W
      .ok { s with instruction_counter := s.instruction_counter + 1 }
    | 2 => do
      let s ← RegisterFile.write_address_bus s .WZ
      let low ← RegisterFile.read_u16_low s .SP
      let s := { s with data_bus := some low }
      let s ← IDU.increment_into s .WZ
      .ok { s with skip_pc_increment := true,
                   instruction_counter := s.instruction_counter + 1 }
    | 3 => do
      let s ← RegisterFile.write_address_bus s .WZ
      let low ← RegisterFile.read_u16_low s .SP
      let s := { s with data_bus := some low }
      .ok { s with skip_pc_increment := true,
                   instruction_counter := s.instruction_counter + 1 }
    | 4 => .ok { s with current_instruction := none }
    | _ => .error .panicUnimplemented
  | .LD_SP_HL =>
    match s.instruction_counter with
    | 0 => do
      let s ← RegisterFile.write_address_bus s .HL
      let s ← IDU.write_into s .SP
      .ok { s with skip_pc_increment := true,
                   instruction_counter := s.instruction_counter + 1 }
    | 1 => .ok { s with current_instruction := none }
    | _ => .error .panicUnimplemented
  | .PUSH r =>
    match s.instruction_counter with
    | 0 => do
      let s ← RegisterFile.write_address_bus s .SP
      let s ← IDU.decrement_into s .SP
      .ok { s with skip_pc_increment := true,
                   instruction_counter := s.instruction_counter + 1 }
    | 1 => do
      let s ← RegisterFile.write_address_bus s .SP
      let high ← RegisterFile.read_u16_high s r
      let s := { s with data_bus := some high }
      let s ← IDU.decrement_into s .SP
      .ok { s with skip_pc_increment := true,
                   instruction_counter := s.instruction_counter + 1 }
    | 2 => do
      let s ← RegisterFile.write_address_bus s .SP
      let low ← RegisterFile.read_u16_low s r
      let s := { s with data_bus := some low }
      let s ← IDU.write_into s .SP
      .ok { s with skip_pc_increment := true,
                   instruction_counter := s.instruction_counter + 1 }
    | 3 => .ok { s with current_instruction := none }
    | _ => .error .panicUnimplemented
  | .POP r =>
    match s.instruction_counter with
    | 0 => do
      let s ← RegisterFile.write_address_bus s .SP
      let s ← RegisterFile.read_data_bus s .Z
      let s ← IDU.increment_into s .SP
      .ok { s with skip_pc_increment := true,
                   instruction_counter := s.instruction_counter + 1 }
    | 1 => do
      let s ← RegisterFile.write_address_bus s .SP
      let s ← RegisterFile.read_data_bus s .W
      let s ← IDU.increment_into s .SP
      .ok { s with skip_pc_increment := true,
                   instruction_counter := s.instruction_counter + 1 }
    | 2 => do
      let wz ← RegisterFile.read_u16 s .WZ
      let s ← RegisterFile.write_u16 s r wz
      .ok { s with current_instruction := none }
    | _ => .error .panicUnimplemented
  | .LD_SPE =>
    match s.instruction_counter with
    | 0 => do
      let s ← RegisterFile.read_data_bus s .Z
      .ok { s with instruction_counter := s.instruction_counter + 1 }
    | 1 => do
      let s := { s with address_bus := some 0x0000 }
      let s ← ALU.read_data_register s .Z
      let s ← ALU.addi_register_16_low s .SP
      let s ← ALU.write_register_pair_low s .HL
      .ok { s with skip_pc_increment := true,
                   instruction_counter := s.instruction_counter + 1 }
    | 2 => do
      let s ← ALU.read_data_register s .Z
      let s ← ALU.addi_register_16_high s .SP
      let s ← ALU.write_register_pair_high s .HL
      .ok { s with current_instruction := none }
    | _ => .error .panicUnimplemented
  | .ADD r => do
    let s ← ALU.read_data_register s .A
    let s ← ALU.add_register s r false
    let s ← ALU.write_data_register s .A
    .ok { s with current_instruction := none }
  | .ADD_HL => do
    let s ← RegisterFile.write_address_bus s .HL
    let s ← RegisterFile.read_data_bus s .Z
    .ok { s with skip_pc_increment := true,
                 current_instruction := some (.ADD .Z) }
  | .ADDI => do
    let s ← RegisterFile.read_data_bus s .Z
    .ok { s with current_instruction := some (.ADD .Z) }
  | .ADC r => do
    let s ← ALU.read_data_register s .A
    let s ← ALU.add_register s r true
    let s ← ALU.write_data_register s .A
    .ok { s with current_instruction := none }
  | .ADC_HL => do
    let s ← RegisterFile.write_address_bus s .HL
    let s ← RegisterFile.read_data_bus s .Z
    .ok { s with skip_pc_increment := true,
                 current_instruction := some (.ADC .Z) }
  | .ADCI => do
    let s ← RegisterFile.read_data_bus s .Z
    .ok { s with current_instruction := some (.ADC .Z) }
  | .SUB r => do
    let s ← ALU.read_data_register s .A
    let s ← ALU.sub_register s r false
    let s ← ALU.write_data_register s .A
    .ok { s with current_instruction := none }
  | .SUB_HL => do
    let s ← RegisterFile.write_address_bus s .HL
    let s ← RegisterFile.read_data_bus s .Z
    .ok { s with skip_pc_increment := true,
                 current_instruction := some (.SUB .Z) }
  | .SUBI => do
    let s ← RegisterFile.read_data_bus s .Z
    .ok { s with current_instruction := some (.SUB .Z) }
  | .SBC r => do
    let s ← ALU.read_data_register s .A
    let s ← ALU.sub_register s r true
    let s ← ALU.write_data_register s .A
    .ok { s with current_instruction := none }
  | .SBC_HL => do
    let s ← RegisterFile.write_address_bus s .HL
    let s ← RegisterFile.read_data_bus s .Z
    .ok { s with skip_pc_increment := true,
                 current_instruction := some (.SBC .Z) }
  | .SBCI => do
    let s ← RegisterFile.read_data_bus s .Z
    .ok { s with current_instruction := some (.SBC .Z) }
  | .CP r => do
    let s ← ALU.read_data_register s .A
    let s ← ALU.sub_register s r true
    .ok { s with current_instruction := none }
  | .CP_HL => do
    let s ← RegisterFile.write_address_bus s .HL
    let s ← RegisterFile.read_data_bus s .Z
    .ok { s with skip_pc_increment := true,
                 current_instruction := some (.CP .Z) }
  | .CPI => do
    let s ← RegisterFile.read_data_bus s .Z
    .ok { s with current_instruction := some (.CP .Z) }
  | .INC r => do
    let s ← ALU.read_data_register s r
    let s ← ALU.increment s
    let s ← ALU.write_data_register s r
    .ok { s with current_instruction := none }
  | .INC_HL =>
    match s.instruction_counter with
    | 0 => do
      let s ← RegisterFile.write_address_bus s .HL
      let s ← RegisterFile.read_data_bus s .Z
      .ok { s with skip_pc_increment := true,
                   instruction_counter := s.instruction_counter + 1 }
    | 1 => do
      let s ← ALU.read_data_register s .Z
      let s ← ALU.increment s
      let s := ALU.write_data_bus s
      .ok { s with skip_pc_increment := true,
                   instruction_counter := s.instruction_counter + 1 }
    | 2 => .ok { s with current_instruction := none }
    | _ => .error .panicUnimplemented
  | .DEC r => do
    let s ← ALU.read_data_register s r
    let s ← ALU.decrement s
    let s ← ALU.write_data_register s r
    .ok { s with current_instruction := none }
  | .DEC_HL =>
    match s.instruction_counter with
    | 0 => do
      let s ← RegisterFile.write_address_bus s .HL
      let s ← RegisterFile.read_data_bus s .Z
      .ok { s with skip_pc_increment := true,
                   instruction_counter := s.instruction_counter + 1 }
    | 1 => do
      let s ← ALU.read_data_register s .Z
      let s ← ALU.decrement s
      let s := ALU.write_data_bus s
      .ok { s with skip_pc_increment := true,
                   instruction_counter := s.instruction_counter + 1 }
    | 2 => .ok { s with current_instruction := none }
    | _ => .error .panicUnimplemented
  | .AND r => do
    let s ← ALU.read_data_register s .A
    let s ← ALU.and s r
    let s ← ALU.write_data_register s .A
    .ok { s with current_instruction := none }
  | .AND_HL => do
    let s ← RegisterFile.write_address_bus s .HL
    let s ← RegisterFile.read_data_bus s .Z
    .ok { s with skip_pc_increment := true,
                 current_instruction := some (.AND .Z) }
  | .ANDI => do
    let s ← RegisterFile.read_data_bus s .Z
    .ok { s with skip_pc_increment := true,
                 current_instruction := some (.AND .Z) }
  | .OR r => do
    let s ← ALU.read_data_register s .A
    let s ← ALU.or s r
    let s ← ALU.write_data_register s .A
    .ok { s with current_instruction := none }
  | .OR_HL => do
    let s ← RegisterFile.write_address_bus s .HL
    let s ← RegisterFile.read_data_bus s .Z
    .ok { s with skip_pc_increment := true,
                 current_instruction := some (.OR .Z) }
  | .ORI => do
    let s ← RegisterFile.read_data_bus s .Z
    .ok { s with skip_pc_increment := true,
                 current_instruction := some (.OR .Z) }
  | .XOR r => do
    let s ← ALU.read_data_register s .A
    let s ← ALU.xor s r
    let s ← ALU.write_data_register s .A
    .ok { s with current_instruction := none }
  | .XOR_HL => do
    let s ← RegisterFile.write_address_bus s .HL
    let s ← RegisterFile.read_data_bus s .Z
    .ok { s with skip_pc_increment := true,
                 current_instruction := some (.XOR .Z) }
  | .XORI => do
    let s ← RegisterFile.read_data_bus s .Z
    .ok { s with skip_pc_increment := true,
                 current_instruction := some (.XOR .Z) }
  | .CCF => do
    let s ← ALU.flip_carry s
    .ok { s with current_instruction := none }
  | .SCF => do
    let s ← ALU.set_carry s
    .ok { s with current_instruction := none }
  | .DAA => do
    let s ← ALU.read_data_register s .A
    let s ← ALU.decimal_adjust s
    let s ← ALU.write_data_register s .A
    .ok { s with current_instruction := none }
  | .CPL => do
    let s ← ALU.read_data_register s .A
    let s ← ALU.flip s
    let s ← ALU.write_data_register s .A
    .ok { s with current_instruction := none }
  | .INC_16 r =>
    match s.instruction_counter with
    | 0 => do
      let s ← RegisterFile.write_address_bus s r
      let s ← IDU.increment_into s r
      .ok { s with skip_pc_increment := true,
                   instruction_counter := s.instruction_counter + 1 }
    | 1 => .ok { s with current_instruction := none }
    | _ => .error .panicUnimplemented
  | .DEC_16 r =>
    match s.instruction_counter with
    | 0 => do
      let s ← RegisterFile.write_address_bus s r
      let s ← IDU.decrement_into s r
      .ok { s with skip_pc_increment := true,
                   instruction_counter := s.instruction_counter + 1 }
    | 1 => .ok { s with current_instruction := none }
    | _ => .error .panicUnimplemented
  | .ADD_HL_16 r =>
    match s.instruction_counter with
    | 0 => do
      let s := { s with address_bus := some 0x0000 }
      let s ← ALU.read_register_pair_low s .HL
      let s ← ALU.add_register_16_low s r
      let s ← ALU.write_register_pair_low s .HL
      .ok { s with skip_pc_increment := true,
                   instruction_counter := s.instruction_counter + 1 }
    | 1 => do
      let s ← ALU.read_register_pair_low s .HL
      let s ← ALU.add_register_16_high s r
      let s ← ALU.write_register_pair_low s .HL
      .ok { s with current_instruction := none }
    | _ => .error .panicUnimplemented
  | .ADD_SPE =>
    match s.instruction_counter with
    | 0 => do
      let s ← RegisterFile.read_data_bus s .Z
      .ok { s with instruction_counter := s.instruction_counter + 1 }
    | 1 => do
      let s := { s with address_bus := some 0x0000 }
      let s ← ALU.read_data_register s .Z
      let s ← ALU.addi_register_16_low s .SP
      let s ← ALU.write_register_pair_low s .WZ
      .ok { s with skip_pc_increment := true,
                   instruction_counter := s.instruction_counter + 1 }
    | 2 => do
      let s := { s with address_bus := some 0x0000 }
      let s ← ALU.read_data_register s .Z
      let s ← ALU.addi_register_16_high s .SP
      let s ← ALU.write_register_pair_high s .WZ
      .ok { s with skip_pc_increment := true,
                   instruction_counter := s.instruction_counter + 1 }
    | 3 => do
      let wz ← RegisterFile.read_u16 s .WZ
      let s ← RegisterFile.write_u16 s .SP wz
      .ok { s with current_instruction := none }
    | _ => .error .panicUnimplemented
  | .RLCA => do
    let s ← ALU.read_data_register s .A
    let s ← ALU.rotate_left s false
    let s ← ALU.write_data_register s .A
    .ok { s with current_instruction := none }
  | .RRCA => do
    let s ← ALU.read_data_register s .A
    let s ← ALU.rotate_right s false
    let s ← ALU.write_data_register s .A
    .ok { s with current_instruction := none }
  | .RLA => do
    let s ← ALU.read_data_register s .A
    let s ← ALU.rotate_left s true
    let s ← ALU.write_data_register s .A
    .ok { s with current_instruction := none }
  | .RRA => do
    let s ← ALU.read_data_register s .A
    let s ← ALU.rotate_right s true
    let s ← ALU.write_data_register s .A
    .ok { s with current_instruction := none }
  | .CB => do
    let s ← RegisterFile.read_data_bus s .IR
    let instr ← decode_cb s
    .ok { s with current_instruction := some instr }
  | .RLC r => do
    let s ← ALU.read_data_register s r
    let s ← ALU.rotate_left s false
    let s ← ALU.write_data_register s r
    .ok { s with current_instruction := none }
  | .RLC_HL =>
    match s.instruction_counter with
    | 0 => do
      let s ← RegisterFile.write_address_bus s .HL
      let s ← RegisterFile.read_data_bus s .Z
      .ok { s with skip_pc_increment := true,
                   instruction_counter := s.instruction_counter + 1 }
    | 1 => do
      let s ← RegisterFile.write_address_bus s .HL
      let s ← ALU.read_data_register s .Z
      let s ← ALU.rotate_left s false
      let s := ALU.write_data_bus s
      .ok { s with skip_pc_increment := true,
                   instruction_counter := s.instruction_counter + 1 }
    | 2 => .ok { s with current_instruction := none }
    | _ => .error .panicUnimplemented
  | .RRC r => do
    let s ← ALU.read_data_register s r
    let s ← ALU.rotate_right s false
    let s ← ALU.write_data_register s r
    .ok { s with current_instruction := none }
  | .RRC_HL =>
    match s.instruction_counter with
    | 0 => do
      let s ← RegisterFile.write_address_bus s .HL
      let s ← RegisterFile.read_data_bus s .Z
      .ok { s with skip_pc_increment := true,
                   instruction_counter := s.instruction_counter + 1 }
    | 1 => do
      let s ← RegisterFile.write_address_bus s .HL
      let s ← ALU.read_data_register s .Z
      let s ← ALU.rotate_right s false
      let s := ALU.write_data_bus s
      .ok { s with skip_pc_increment := true,
                   instruction_counter := s.instruction_counter + 1 }
    | 2 => .ok { s with current_instruction := none }
    | _ => .error .panicUnimplemented
  | .RL r => do
    let s ← ALU.read_data_register s r
    let s ← ALU.rotate_left s true
    let s ← ALU.write_data_register s r
    .ok { s with current_instruction := none }
  | .RL_HL =>
    match s.instruction_counter with
    | 0 => do
      let s ← RegisterFile.write_address_bus s .HL
      let s ← RegisterFile.read_data_bus s .Z
      .ok { s with skip_pc_increment := true,
                   instruction_counter := s.instruction_counter + 1 }
    | 1 => do
      let s ← RegisterFile.write_address_bus s .HL
      let s ← ALU.read_data_register s .Z
      let s ← ALU.rotate_left s true
      let s := ALU.write_data_bus s
      .ok { s with skip_pc_increment := true,
                   instruction_counter := s.instruction_counter + 1 }
    | 2 => .ok { s with current_instruction := none }
    | _ => .error .panicUnimplemented
  | .RR r => do
    let s ← ALU.read_data_register s r
    let s ← ALU.rotate_right s true
    let s ← ALU.write_data_register s r
    .ok { s with current_instruction := none }
  | .RR_HL =>
    match s.instruction_counter with
    | 0 => do
      let s ← RegisterFile.write_address_bus s .HL
      let s ← RegisterFile.read_data_bus s .Z
      .ok { s with skip_pc_increment := true,
                   instruction_counter := s.instruction_counter + 1 }
    | 1 => do
      let s ← RegisterFile.write_address_bus s .HL
      let s ← ALU.read_data_register s .Z
      let s ← ALU.rotate_right s true
      let s := ALU.write_data_bus s
      .ok { s with skip_pc_increment := true,
                   instruction_counter := s.instruction_counter + 1 }
    | 2 => .ok { s with current_instruction := none }
    | _ => .error .panicUnimplemented
  | .SLA r => do
    let s ← ALU.read_data_register s r
    let s ← ALU.shift_left s
    let s ← ALU.write_data_register s r
    .ok { s with current_instruction := none }
  | .SLA_HL =>
    match s.instruction_counter with
    | 0 => do
      let s ← RegisterFile.write_address_bus s .HL
      let s ← RegisterFile.read_data_bus s .Z
      .ok { s with skip_pc_increment := true,
                   instruction_counter := s.instruction_counter + 1 }
    | 1 => do
      let s ← RegisterFile.write_address_bus s .HL
      let s ← ALU.read_data_register s .Z
      let s ← ALU.shift_left s
      let s := ALU.write_data_bus s
      .ok { s with skip_pc_increment := true,
                   instruction_counter := s.instruction_counter + 1 }
    | 2 => .ok { s with current_instruction := none }
    | _ => .error .panicUnimplemented
  | .SRA r => do
    let s ← ALU.read_data_register s r
    let s ← ALU.shift_right s true
    let s ← ALU.write_data_register s r
    .ok { s with current_instruction := none }
  | .SRA_HL =>
    match s.instruction_counter with
    | 0 => do
      let s ← RegisterFile.write_address_bus s .HL
      let s ← RegisterFile.read_data_bus s .Z
      .ok { s with skip_pc_increment := true,
                   instruction_counter := s.instruction_counter + 1 }
    | 1 => do
      let s ← RegisterFile.write_address_bus s .HL
      let s ← ALU.read_data_register s .Z
      let s ← ALU.shift_right s true
      let s := ALU.write_data_bus s
      .ok { s with skip_pc_increment := true,
                   instruction_counter := s.instruction_counter + 1 }
    | 2 => .ok { s with current_instruction := none }
    | _ => .error .panicUnimplemented
  | .SRL r => do
    let s ← ALU.read_data_register s r
    let s ← ALU.shift_right s false
    let s ← ALU.write_data_register s r
    .ok { s with current_instruction := none }
  | .SRL_HL =>
    match s.instruction_counter with
    | 0 => do
      let s ← RegisterFile.write_address_bus s .HL
      let s ← RegisterFile.read_data_bus s .Z
      .ok { s with skip_pc_increment := true,
                   instruction_counter := s.instruction_counter + 1 }
    | 1 => do
      let s ← RegisterFile.write_address_bus s .HL
      let s ← ALU.read_data_register s .Z
      let s ← ALU.shift_right s false
      let s := ALU.write_data_bus s
      .ok { s with skip_pc_increment := true,
                   instruction_counter := s.instruction_counter + 1 }
    | 2 => .ok { s with current_instruction := none }
    | _ => .error .panicUnimplemented
  | .SWAP r => do
    let s ← ALU.read_data_register s r
    let s ← ALU.swap s
    let s ← ALU.write_data_register s r
    .ok { s with current_instruction := none }
  | .SWAP_HL =>
    match s.instruction_counter with
    | 0 => do
      let s ← RegisterFile.write_address_bus s .HL
      let s ← RegisterFile.read_data_bus s .Z
      .ok { s with skip_pc_increment := true,
                   instruction_counter := s.instruction_counter + 1 }
    | 1 => do
      let s ← RegisterFile.write_address_bus s .HL
      let s ← ALU.read_data_register s .Z
      let s ← ALU.swap s
      let s := ALU.write_data_bus s
      .ok { s with skip_pc_increment := true,
                   instruction_counter := s.instruction_counter + 1 }
    | 2 => .ok { s with current_instruction := none }
    | _ => .error .panicUnimplemented
  | .BIT bit_idx r => do
    let s ← ALU.read_data_register s r
    let s ← ALU.test_bit s bit_idx
    .ok { s with current_instruction := none }
  | .BIT_HL bit_idx =>
    match s.instruction_counter with
    | 0 => do
      let s ← RegisterFile.write_address_bus s .HL
      let s ← RegisterFile.read_data_bus s .Z
      .ok { s with skip_pc_increment := true,
                   instruction_counter := s.instruction_counter + 1 }
    | 1 => do
      let s ← RegisterFile.write_address_bus s .HL
      let s ← ALU.read_data_register s .Z
      let s ← ALU.test_bit s bit_idx
      .ok { s with current_instruction := none }
    | _ => .error .panicUnimplemented
  | .RES bit_idx r => do
    let s ← ALU.read_data_register s r
    let s ← ALU.reset_bit s bit_idx
    .ok { s with current_instruction := none }
  | .RES_HL bit_idx =>
    match s.instruction_counter with
    | 0 => do
      let s ← RegisterFile.write_address_bus s .HL
      let s ← RegisterFile.read_data_bus s .Z
      .ok { s with skip_pc_increment := true,
                   instruction_counter := s.instruction_counter + 1 }
    | 1 => do
      let s ← RegisterFile.write_address_bus s .HL
      let s ← ALU.read_data_register s .Z
      let s ← ALU.reset_bit s bit_idx
      let s := ALU.write_data_bus s
      .ok { s with skip_pc_increment := true,
                   instruction_counter := s.instruction_counter + 1 }
    | 2 => .ok { s with current_instruction := none }
    | _ => .error .panicUnimplemented
  | .SET bit_idx r => do
    let s ← ALU.read_data_register s r
    let s ← ALU.set_bit s bit_idx
    .ok { s with current_instruction := none }
  | .SET_HL bit_idx =>
    match s.instruction_counter with
    | 0 => do
      let s ← RegisterFile.write_address_bus s .HL
      let s ← RegisterFile.read_data_bus s .Z
      .ok { s with skip_pc_increment := true,
                   instruction_counter := s.instruction_counter + 1 }
    | 1 => do
      let s ← RegisterFile.write_address_bus s .HL
      let s ← ALU.read_data_register s .Z
      let s ← ALU.set_bit s bit_idx
      let s := ALU.write_data_bus s
      .ok { s with skip_pc_increment := true,
                   instruction_counter := s.instruction_counter + 1 }
    | 2 => .ok { s with current_instruction := none }
    | _ => .error .panicUnimplemented
  | .JPI =>
    match s.instruction_counter with
    | 0 => do
      let s ← RegisterFile.read_data_bus s .Z
      .ok { s with instruction_counter := s.instruction_counter + 1 }
    | 1 => do
      let s ← RegisterFile.read_data_bus s .W
      .ok { s with instruction_counter := s.instruction_counter + 1 }
    | 2 => do
      let s := { s with address_bus := some 0x0000 }
      let wz ← RegisterFile.read_u16 s .WZ
      let s ← RegisterFile.write_u16 s .PC wz
      .ok { s with skip_pc_increment := true,
                   instruction_counter := s.instruction_counter + 1 }
    | 3 => .ok { s with current_instruction := none }
    | _ => .error .panicUnimplemented
  | .JP_HL => do
    let s ← RegisterFile.write_address_bus s .HL
    let s ← IDU.increment_into s .PC
    .ok { s with skip_pc_increment := true, current_instruction := none }
  | .JP_CCI value flag =>
    match s.instruction_counter with
    | 0 => do
      let s ← RegisterFile.read_data_bus s .Z
      .ok { s with instruction_counter := s.instruction_counter + 1 }
    | 1 => do
      let s ← RegisterFile.read_data_bus s .W
      .ok { s with instruction_counter := s.instruction_counter + 1 }
    | 2 =>
      let flags := RegisterFile.flags s
      let flag_value := if flag then flags.get_c else flags.get_z
      if flag_value == value then do
        let s := { s with address_bus := some 0x0000 }
        let wz ← RegisterFile.read_u16 s .WZ
        let s ← RegisterFile.write_u16 s .PC wz
        .ok { s with instruction_counter := s.instruction_counter + 1 }
      else
        .ok { s with current_instruction := none }
    | 3 => .ok { s with current_instruction := none }
    | _ => .error .panicUnimplemented
  | .JR =>
    match s.instruction_counter with
    | 0 => do
      let s ← RegisterFile.read_data_bus s .Z
      .ok { s with instruction_counter := s.instruction_counter + 1 }
    | 1 => do
      let s ← ALU.read_data_register s .Z
      let sa ← ALU.jump_relative_add s
      let s := sa.1
      let s ← ALU.write_data_register s .Z
      let pch ← RegisterFile.read_u16_high s .PC
      let s := { s with address_bus := some pch }
      let s ← IDU.adjust_u8_into s .W sa.2
      .ok { s with skip_pc_increment := true,
                   instruction_counter := s.instruction_counter + 1 }
    | 2 => do
      let s ← RegisterFile.write_address_bus s .WZ
      let s ← IDU.increment_into s .PC
      .ok { s with skip_pc_increment := true, current_instruction := none }
    | _ => .error .panicUnimplemented
  | .JR_CC value flag =>
    match s.instruction_counter with
    | 0 => do
      let s ← RegisterFile.read_data_bus s .Z
      let flags := RegisterFile.flags s
      let flag_value := if flag then flags.get_c else flags.get_z
      if flag_value == value then
        .ok { s with instruction_counter := 2 }
      else
        .ok { s with instruction_counter := 1 }
    | 1 => .ok { s with current_instruction := none }
    | 2 => do
      let s ← ALU.read_data_register s .Z
      let sa ← ALU.jump_relative_add s
      let s := sa.1
      let s ← ALU.write_data_register s .Z
      let pch ← RegisterFile.read_u16_high s .PC
      let s := { s with address_bus := some pch }
      let s ← IDU.adjust_u8_into s .W sa.2
      .ok { s with skip_pc_increment := true,
                   instruction_counter := s.instruction_counter + 1 }
    | 3 => do
      let s ← RegisterFile.write_address_bus s .WZ
      let s ← IDU.increment_into s .PC
      .ok { s with skip_pc_increment := true, current_instruction := none }
    | _ => .error .panicUnimplemented
  | .CALL =>
    match s.instruction_counter with
    | 0 => do
      let s ← RegisterFile.read_data_bus s .Z
      .ok { s with instruction_counter := s.instruction_counter + 1 }
    | 1 => do
      let s ← RegisterFile.read_data_bus s .W
      .ok { s with instruction_counter := s.instruction_counter + 1 }
    | 2 => do
      let s ← RegisterFile.write_address_bus s .SP
      let s ← IDU.decrement_into s .SP
      .ok { s with instruction_counter := s.instruction_counter + 1 }
    | 3 => do
      let s ← RegisterFile.write_address_bus s .SP
      let pch ← RegisterFile.read_u16_high s .PC
      let s := { s with data_bus := some pch }
      let s ← IDU.decrement_into s .SP
      .ok { s with instruction_counter := s.instruction_counter + 1 }
    | 4 => do
      let s ← RegisterFile.write_address_bus s .SP
      let pcl ← RegisterFile.read_u16_low s .PC
      let s := { s with data_bus := some pcl }
      let s ← IDU.write_into s .SP
      let wz ← RegisterFile.read_u16 s .WZ
      let s ← RegisterFile.write_u16 s .SP wz
      .ok { s with instruction_counter := s.instruction_counter + 1 }
    | 5 => .ok { s with current_instruction := none }
    | _ => .error .panicUnimplemented
  | .CALL_CC value flag =>
    match s.instruction_counter with
    | 0 => do
      let s ← RegisterFile.read_data_bus s .Z
      .ok { s with instruction_counter := s.instruction_counter + 1 }
    | 1 => do
      let s ← RegisterFile.read_data_bus s .W
      let flags := RegisterFile.flags s
      let flag_value := if flag then flags.get_c else flags.get_z
      if flag_value == value then
        .ok { s with instruction_counter := 3 }
      else
        .ok { s with instruction_counter := 2 }
    | 2 => .ok { s with current_instruction := none }
    | 3 => do
      let s ← RegisterFile.write_address_bus s .SP
      let s ← IDU.decrement_into s .SP
      .ok { s with instruction_counter := s.instruction_counter + 1 }
    | 4 => do
      let s ← RegisterFile.write_address_bus s .SP
      let pch ← RegisterFile.read_u16_high s .PC
      let s := { s with data_bus := some pch }
      let s ← IDU.decrement_into s .SP
      .ok { s with instruction_counter := s.instruction_counter + 1 }
    | 5 => do
      let s ← RegisterFile.write_address_bus s .SP
      let pcl ← RegisterFile.read_u16_low s .PC
      let s := { s with data_bus := some pcl }
      let s ← IDU.write_into s .SP
      let wz ← RegisterFile.read_u16 s .WZ
      let s ← RegisterFile.write_u16 s .SP wz
      .ok { s with instruction_counter := s.instruction_counter + 1 }
    | 6 => .ok { s with current_instruction := none }
    | _ => .error .panicUnimplemented
  | .RET =>
    match s.instruction_counter with
    | 0 => do
      let s ← RegisterFile.write_address_bus s .SP
      let s ← RegisterFile.read_data_bus s .Z
      let s ← IDU.increment_into s .SP
      .ok { s with skip_pc_increment := true,
                   instruction_counter := s.instruction_counter + 1 }
    | 1 => do
      let s ← RegisterFile.write_address_bus s .SP
      let s ← RegisterFile.read_data_bus s .W
      let s ← IDU.increment_into s .SP
      .ok { s with skip_pc_increment := true,
                   instruction_counter := s.instruction_counter + 1 }
    | 2 => do
      let s := { s with address_bus := some 0x0000 }
      let wz ← RegisterFile.read_u16 s .WZ
      let s ← RegisterFile.write_u16 s .PC wz
      .ok { s with skip_pc_increment := true,
                   instruction_counter := s.instruction_counter + 1 }
    | 3 => .ok { s with current_instruction := none }
    | _ => .error .panicUnimplemented
  | .RET_CC value flag =>
    match s.instruction_counter with
    | 0 =>
      let s := { s with address_bus := some 0x0000 }
      let flags := RegisterFile.flags s
      let flag_value := if flag then flags.get_c else flags.get_z
      if flag_value == value then
        .ok { s with skip_pc_increment := true, instruction_counter := 1 }
      else
        .ok { s with skip_pc_increment := true, instruction_counter := 4 }
    | 1 => do
      let s ← RegisterFile.write_address_bus s .SP
      let s ← RegisterFile.read_data_bus s .Z
      let s ← IDU.increment_into s .SP
      .ok { s with skip_pc_increment := true,
                   instruction_counter := s.instruction_counter + 1 }
    | 2 => do
      let s ← RegisterFile.write_address_bus s .SP
      let s ← RegisterFile.read_data_bus s .W
      let s ← IDU.increment_into s .SP
      .ok { s with skip_pc_increment := true,
                   instruction_counter := s.instruction_counter + 1 }
    | 3 => do
      let s := { s with address_bus := some 0x0000 }
      let wz ← RegisterFile.read_u16 s .WZ
      let s ← RegisterFile.write_u16 s .PC wz
      .ok { s with skip_pc_increment := true,
                   instruction_counter := s.instruction_counter + 1 }
    | 4 => .ok { s with current_instruction := none }
    | _ => .error .panicUnimplemented
  | .RETI =>
    match s.instruction_counter with
    | 0 => do
      let s ← RegisterFile.write_address_bus s .SP
      let s ← RegisterFile.read_data_bus s .Z
      let s ← IDU.increment_into s .SP
      .ok { s with skip_pc_increment := true,
                   instruction_counter := s.instruction_counter + 1 }
    | 1 => do
      let s ← RegisterFile.write_address_bus s .SP
      let s ← RegisterFile.read_data_bus s .W
      let s ← IDU.increment_into s .SP
      .ok { s with skip_pc_increment := true,
                   instruction_counter := s.instruction_counter + 1 }
    | 2 => do
      let s := { s with address_bus := some 0x0000 }
      let wz ← RegisterFile.read_u16 s .WZ
      let s ← RegisterFile.write_u16 s .PC wz
      let s := ControlUnit.enable_interrupts s
      .ok { s with skip_pc_increment := true,
                   instruction_counter := s.instruction_counter + 1 }
    | 3 => .ok { s with current_instruction := none }
    | _ => .error .panicUnimplemented
  | .RST address =>
    match s.instruction_counter with
    | 0 => do
      let s ← RegisterFile.write_address_bus s .SP
      let s ← IDU.decrement_into s .SP
      .ok { s with skip_pc_increment := true,
                   instruction_counter := s.instruction_counter + 1 }
    | 1 => do
      let s ← RegisterFile.write_address_bus s .SP
      let pch ← RegisterFile.read_u16_high s .PC
      let s := { s with data_bus := some pch }
      let s ← IDU.decrement_into s .SP
      .ok { s with skip_pc_increment := true,
                   instruction_counter := s.instruction_counter + 1 }
    | 2 => do
      let s ← RegisterFile.write_address_bus s .SP
      let pch ← RegisterFile.read_u16_high s .PC
      let s := { s with data_bus := some pch }
      let s ← IDU.write_into s .SP
      let s ← RegisterFile.write_u16 s .PC address
      .ok { s with instruction_counter := s.instruction_counter + 1 }
    | 3 => .ok { s with current_instruction := none }
    | _ => .error .panicUnimplemented
  | .HALT => .ok s
  | .STOP => .ok s
  | .DI =>
    let s := ControlUnit.disable_interrupts s
    .ok { s with current_instruction := none }
  | .EI =>
    let s := ControlUnit.enable_interrupts s
    .ok { s with current_instruction := none }
  | .NOP => .ok { s with current_instruction := none }

/-- `CPU::clock_cycle`: decode when idle, execute one micro-step, latch the
next opcode from the data bus when the instruction completed, then advance
PC via the IDU unless the micro-step requested `skip_pc_increment`; the
skip flag is cleared unconditionally at the end. -/
def clock_cycle (s : CPUState) : Except Fault CPUState := do
  let s ←
    if s.current_instruction.isNone then do
      let instr ← decode s
      pure { s with current_instruction := some instr }
    else
      pure s
  match s.current_instruction with
  | none => .error .panicUnimplemented
  | some current_instruction => do
    let s ← execute s current_instruction
    let s ←
      if s.current_instruction.isNone then do
        let s := { s with instruction_counter := 0 }
        RegisterFile.read_data_bus s .IR
      else
        pure s
    let s ←
      if !s.skip_pc_increment then do
        let pc ← RegisterFile.read_u16 s .PC
        let s := { s with address_bus := some pc }
        IDU.increment_into s .PC
      else
        pure s
    .ok { s with skip_pc_increment := false }

/-- Number of `clock_cycle` calls (at most `fuel`, counting from `acc`)
until `current_instruction` is cleared; `none` when the fuel runs out or a
fault occurs first. -/
def completionCycles : Nat → Nat → CPUState → Option Nat
  | 0, _, _ => none
  | fuel + 1, acc, s =>
    match clock_cycle s with
    | .error _ => none
    | .ok s2 =>
      if s2.current_instruction.isNone then some (acc + 1)
      else completionCycles fuel (acc + 1) s2

/-- A zero-initialized CPU whose instruction register holds the opcode
byte `op` (as a test driver would inject it). -/
def decode_state (op : Nat) : CPUState :=
  { CPU.new with regs := CPU.new.regs.set Register.IR.index op }

/-- A zero-initialized CPU about to execute micro-step 0 of `instr`, with
the four flags set from the given booleans (F := Z + 2N + 4H + 8C),
PC = 0x0100, SP = 0xC000, the data bus latched with operand byte 0x05 and
the address bus latched with 0x0000. -/
def condState (instr : Instruction) (zf nf hf cf : Bool) : CPUState :=
  { CPU.new with
      regs := (((CPU.new.regs.set Register.F.index
          ((if zf then 1 else 0) + (if nf then 2 else 0) +
            (if hf then 4 else 0) + (if cf then 8 else 0))).set 13 1).set 15 0xC0),
      data_bus := some 0x05,
      address_bus := some 0x0000,
      current_instruction := some instr,
      instruction_counter := 0 }

/-- The branch condition of the conditional instructions: the selected flag
(C when `flag`, else Z) compared against `value`, as in `CPU::execute`. -/
def condMet (value flag zf cf : Bool) : Bool :=
  (if flag then cf else zf) == value

/-- The three-cycle `LD HL, nn` scenario: opcode 0x21 in IR with no
instruction in flight, the data bus supplying 0x35 during the first cycle
and 0x00 during the second; returns whether an instruction was still in
flight after cycles 1 and 2, whether it completed at cycle 3, and the
final HL value. -/
def ld_hl_imm_scenario : Except Fault (Bool × Bool × Bool × Nat) := do
  let s0 := { CPU.new with regs := CPU.new.regs.set Register.IR.index 0x21,
                           data_bus := some 0x35 }
  let s1 ← clock_cycle s0
  let s2 ← clock_cycle { s1 with data_bus := some 0x00 }
  let s3 ← clock_cycle s2
  let hl ← RegisterFile.read_u16 s3 .HL
  pure (s1.current_instruction.isSome, s2.current_instruction.isSome,
    s3.current_instruction.isNone, hl)

/-!
## Theorems

Each claim of the specification is settled below. Shared helper lemmas
come first.
-/

/-- Loop invariant of the ripple adder: after `n` iterations the result
holds the low `n` bits of `a + b + cv`, the running carry is the carry out
of bit `n - 1`, and bit `i` of the carry bitmap records whether the low
`i + 1` bits of the full-precision sum overflowed. -/
theorem add_loop_spec (a b cv : Nat) (hc : cv ≤ 1) :
    ∀ n, (ALU.add_loop a b cv n).1 = (a % 2 ^ n + b % 2 ^ n + cv) % 2 ^ n ∧
      (ALU.add_loop a b cv n).2.2 = (a % 2 ^ n + b % 2 ^ n + cv) / 2 ^ n ∧
      ∀ i, (ALU.add_loop a b cv n).2.1.testBit i =
        (decide (i < n) && decide (2 ^ (i + 1) ≤ a % 2 ^ (i + 1) + b % 2 ^ (i + 1) + cv)) := by
  intro n
  induction n with
  | zero =>
      refine ⟨by simp [ALU.add_loop, Nat.mod_one], by simp [ALU.add_loop, Nat.mod_one],
        fun i => by simp [ALU.add_loop]⟩
  | succ n ih =>
      obtain ⟨hres, hcar, hbits⟩ := ih
      rcases hsplit : ALU.add_loop a b cv n with ⟨r, cb, k⟩
      rw [hsplit] at hres hcar hbits
      simp only at hres hcar hbits
      have hP : 0 < 2 ^ n := Nat.two_pow_pos n
      have hba : (a >>> n) &&& 1 = a / 2 ^ n % 2 := by
        rw [Nat.shiftRight_eq_div_pow, Nat.and_one_is_mod]
      have hbb : (b >>> n) &&& 1 = b / 2 ^ n % 2 := by
        rw [Nat.shiftRight_eq_div_pow, Nat.and_one_is_mod]
      have hrlt : r < 2 ^ n := by rw [hres]; exact Nat.mod_lt _ hP
      have hklt : k ≤ 1 := by
        rw [hcar]
        have h1 : a % 2 ^ n < 2 ^ n := Nat.mod_lt _ hP
        have h2 : b % 2 ^ n < 2 ^ n := Nat.mod_lt _ hP
        have := (Nat.div_lt_iff_lt_mul hP).mpr (by omega : a % 2 ^ n + b % 2 ^ n + cv < 2 * 2 ^ n)
        omega
      have hblt : a / 2 ^ n % 2 ≤ 1 := by omega
      have hblt2 : b / 2 ^ n % 2 ≤ 1 := by omega
      have hsum3 : a / 2 ^ n % 2 + b / 2 ^ n % 2 + k ≤ 3 := by omega
      have hsum : a % 2 ^ (n + 1) + b % 2 ^ (n + 1) + cv =
          r + 2 ^ n * (a / 2 ^ n % 2 + b / 2 ^ n % 2 + k) := by
        have hma : a % 2 ^ (n + 1) = a % 2 ^ n + 2 ^ n * (a / 2 ^ n % 2) := by
          rw [Nat.pow_succ, Nat.mod_mul]
        have hmb : b % 2 ^ (n + 1) = b % 2 ^ n + 2 ^ n * (b / 2 ^ n % 2) := by
          rw [Nat.pow_succ, Nat.mod_mul]
        have hmod : r + 2 ^ n * k = a % 2 ^ n + b % 2 ^ n + cv := by
          rw [hres, hcar]; exact Nat.mod_add_div _ _
        rw [hma, hmb, Nat.mul_add, Nat.mul_add]
        omega
      have hcarry2 : ((a / 2 ^ n % 2) + (b / 2 ^ n % 2) + k) >>> 1 &&& 1 =
          (a / 2 ^ n % 2 + b / 2 ^ n % 2 + k) / 2 := by
        rw [Nat.shiftRight_eq_div_pow, Nat.pow_one, Nat.and_one_is_mod]
        omega
      have hmulsum : 2 ^ n * (a / 2 ^ n % 2 + b / 2 ^ n % 2 + k) =
          2 ^ n * ((a / 2 ^ n % 2 + b / 2 ^ n % 2 + k) % 2) +
            2 ^ n * 2 * ((a / 2 ^ n % 2 + b / 2 ^ n % 2 + k) / 2) := by
        have h2 : a / 2 ^ n % 2 + b / 2 ^ n % 2 + k =
            (a / 2 ^ n % 2 + b / 2 ^ n % 2 + k) % 2 +
              2 * ((a / 2 ^ n % 2 + b / 2 ^ n % 2 + k) / 2) :=
          (Nat.mod_add_div _ 2).symm
        calc 2 ^ n * (a / 2 ^ n % 2 + b / 2 ^ n % 2 + k)
            = 2 ^ n * ((a / 2 ^ n % 2 + b / 2 ^ n % 2 + k) % 2 +
                2 * ((a / 2 ^ n % 2 + b / 2 ^ n % 2 + k) / 2)) := by rw [← h2]
          _ = 2 ^ n * ((a / 2 ^ n % 2 + b / 2 ^ n % 2 + k) % 2) +
                2 ^ n * 2 * ((a / 2 ^ n % 2 + b / 2 ^ n % 2 + k) / 2) := by ring
      have hsmall : 2 ^ n * ((a / 2 ^ n % 2 + b / 2 ^ n % 2 + k) % 2) + r < 2 ^ (n + 1) := by
        have hle : 2 ^ n * ((a / 2 ^ n % 2 + b / 2 ^ n % 2 + k) % 2) ≤ 2 ^ n * 1 :=
          Nat.mul_le_mul_left _ (by omega)
        rw [Nat.pow_succ]
        omega
      have hSdecomp : r + 2 ^ n * (a / 2 ^ n % 2 + b / 2 ^ n % 2 + k) =
          (2 ^ n * ((a / 2 ^ n % 2 + b / 2 ^ n % 2 + k) % 2) + r) +
            2 ^ (n + 1) * ((a / 2 ^ n % 2 + b / 2 ^ n % 2 + k) / 2) := by
        rw [hmulsum, Nat.pow_succ]
        omega
      refine ⟨?_, ?_, ?_⟩
      · simp only [ALU.add_loop, hsplit]
        rw [hba, hbb, Nat.and_one_is_mod, Nat.shiftLeft_eq]
        have hor : r ||| (a / 2 ^ n % 2 + b / 2 ^ n % 2 + k) % 2 * 2 ^ n =
            2 ^ n * ((a / 2 ^ n % 2 + b / 2 ^ n % 2 + k) % 2) + r := by
          rw [Nat.lor_comm, Nat.mul_comm]
          exact (Nat.mul_add_lt_is_or hrlt _).symm
        rw [hor, hsum, hSdecomp, Nat.add_mul_mod_self_left]
        exact (Nat.mod_eq_of_lt hsmall).symm
      · simp only [ALU.add_loop, hsplit]
        rw [hba, hbb, hcarry2, hsum, hSdecomp,
          Nat.add_mul_div_left _ _ (Nat.two_pow_pos (n + 1)), Nat.div_eq_of_lt hsmall,
          Nat.zero_add]
      · intro i
        simp only [ALU.add_loop, hsplit]
        rw [hba, hbb, hcarry2]
        have h2n : (1 : Nat) <<< n = 2 ^ n := by rw [Nat.shiftLeft_eq, Nat.one_mul]
        by_cases hcc : (a / 2 ^ n % 2 + b / 2 ^ n % 2 + k) / 2 = 1
        · rw [if_pos hcc, h2n]
          have hge : 2 ^ (n + 1) ≤ a % 2 ^ (n + 1) + b % 2 ^ (n + 1) + cv := by
            rw [hsum, hSdecomp, hcc]
            omega
          rcases Nat.lt_trichotomy i n with hi | hi | hi
          · have h1 : Nat.testBit (2 ^ n) i = false := Nat.testBit_two_pow_of_ne (by omega)
            have e1 : decide (i < n) = true := by simpa using hi
            have e2 : decide (i < n + 1) = true := by simpa using Nat.lt_succ_of_lt hi
            rw [Nat.testBit_or, hbits i, h1, e1, e2]
            simp
          · subst hi
            have e1 : decide (i < i + 1) = true := by simp
            have e2 : decide (2 ^ (i + 1) ≤ a % 2 ^ (i + 1) + b % 2 ^ (i + 1) + cv) = true := by
              simpa using hge
            rw [Nat.testBit_or, hbits i, Nat.testBit_two_pow_self, e1, e2]
            simp
          · have h1 : Nat.testBit (2 ^ n) i = false := Nat.testBit_two_pow_of_ne (by omega)
            have e1 : decide (i < n) = false := by simpa using (by omega : ¬ i < n)
            have e2 : decide (i < n + 1) = false := by simpa using (by omega : ¬ i < n + 1)
            rw [Nat.testBit_or, hbits i, h1, e1, e2]
            simp
        · rw [if_neg hcc]
          have hcc0 : (a / 2 ^ n % 2 + b / 2 ^ n % 2 + k) / 2 = 0 := by omega
          have hlt2 : a % 2 ^ (n + 1) + b % 2 ^ (n + 1) + cv < 2 ^ (n + 1) := by
            rw [hsum, hSdecomp, hcc0]
            omega
          rcases Nat.lt_trichotomy i n with hi | hi | hi
          · have e1 : decide (i < n) = true := by simpa using hi
            have e2 : decide (i < n + 1) = true := by simpa using Nat.lt_succ_of_lt hi
            rw [hbits i, e1, e2]
          · subst hi
            have e1 : decide (i < i) = false := by simp
            have e2 : decide (2 ^ (i + 1) ≤ a % 2 ^ (i + 1) + b % 2 ^ (i + 1) + cv) = false := by
              simpa using (by omega : ¬ (2 ^ (i + 1) ≤ a % 2 ^ (i + 1) + b % 2 ^ (i + 1) + cv))
            rw [hbits i, e1, e2]
            simp
          · have e1 : decide (i < n) = false := by simpa using (by omega : ¬ i < n)
            have e2 : decide (i < n + 1) = false := by simpa using (by omega : ¬ i < n + 1)
            rw [hbits i, e1, e2]

/-- Claim C1: for all 8-bit `a`, `b` and carry-in `c`,
`add_with_bitwise_carry(a, b, c)` returns `(a + b + c) mod 256`, and in the
returned carry bitmap bit 3 is the carry out of bit 3 (half-carry of the
full-precision addition) and bit 7 is the carry out of bit 7. -/
theorem C1_add_with_bitwise_carry (a b : Nat) (ha : a < 256) (hb : b < 256) (c : Bool) :
    (ALU.add_with_bitwise_carry a b c).1 = (a + b + (if c then 1 else 0)) % 256 ∧
    (ALU.add_with_bitwise_carry a b c).2.testBit 3 =
      decide (16 ≤ a % 16 + b % 16 + (if c then 1 else 0)) ∧
    (ALU.add_with_bitwise_carry a b c).2.testBit 7 =
      decide (256 ≤ a + b + (if c then 1 else 0)) := by
  have hc : (if c then 1 else 0) ≤ 1 := by cases c <;> simp
  obtain ⟨h1, h2, h3⟩ := add_loop_spec a b (if c then 1 else 0) hc 8
  have hma : a % 2 ^ 8 = a := Nat.mod_eq_of_lt (by omega)
  have hmb : b % 2 ^ 8 = b := Nat.mod_eq_of_lt (by omega)
  refine ⟨?_, ?_, ?_⟩
  · show (ALU.add_loop a b (if c then 1 else 0) 8).1 = _
    rw [h1, hma, hmb]
    norm_num
  · show (ALU.add_loop a b (if c then 1 else 0) 8).2.1.testBit 3 = _
    rw [h3 3]
    norm_num
  · show (ALU.add_loop a b (if c then 1 else 0) 8).2.1.testBit 7 = _
    rw [h3 7, hma, hmb]
    norm_num

/-- Witness for C1 at a = 200, b = 100, c = true. -/
theorem C1_add_with_bitwise_carry_witness :
    200 < 256 ∧ 100 < 256 ∧
      ((ALU.add_with_bitwise_carry 200 100 true).1 = (200 + 100 + (if true then 1 else 0)) % 256 ∧
       (ALU.add_with_bitwise_carry 200 100 true).2.testBit 3 =
         decide (16 ≤ 200 % 16 + 100 % 16 + (if true then 1 else 0)) ∧
       (ALU.add_with_bitwise_carry 200 100 true).2.testBit 7 =
         decide (256 ≤ 200 + 100 + (if true then 1 else 0))) :=
  ⟨by decide, by decide, C1_add_with_bitwise_carry 200 100 (by decide) (by decide) true⟩

/-- `read_u8` at a valid 8-bit register tag. -/
theorem read_u8_ok (s : CPUState) (r : Register) (h : r.index < Register.PC.index) :
    RegisterFile.read_u8 s r = .ok (s.regs.getD r.index 0) := by
  unfold RegisterFile.read_u8
  rw [if_pos h]

/-- `write_u8` at a valid 8-bit register tag. -/
theorem write_u8_ok (s : CPUState) (r : Register) (v : Nat) (h : r.index < Register.PC.index) :
    RegisterFile.write_u8 s r v = .ok { s with regs := s.regs.set r.index v } := by
  unfold RegisterFile.write_u8
  rw [if_pos h]

/-- `getD` after `set` at the same in-bounds index. -/
theorem getD_set_self (l : List Nat) (i v : Nat) (h : i < l.length) :
    (l.set i v).getD i 0 = v := by
  simp [List.getD_eq_getElem?_getD, List.getElem?_set_self h]

/-- `getD` after `set` at a different index. -/
theorem getD_set_ne (l : List Nat) (i j v : Nat) (h : i ≠ j) :
    (l.set i v).getD j 0 = l.getD j 0 := by
  simp [List.getD_eq_getElem?_getD, List.getElem?_set_ne h]

/-- Recomposing a shifted high byte with a low byte by `|||` is plain
arithmetic, the bit ranges being disjoint. -/
theorem lor_bytes (hi lo : Nat) (hlo : lo < 256) : (hi <<< 8) ||| lo = 256 * hi + lo := by
  have h := Nat.mul_add_lt_is_or (b := lo) (i := 8) (by norm_num [hlo]) hi
  rw [Nat.shiftLeft_eq, Nat.mul_comm hi]
  norm_num at h ⊢
  exact h.symm

/-- The two bytes stored by a 16-bit register write, read back from the
register file's byte array (high byte at `i`, low byte at `j`). -/
theorem pair_bytes_list (l : List Nat) (hlen : l.length = 16) (i j : Nat)
    (hij : i ≠ j) (hi : i < 16) (hj : j < 16) (w : Nat) (hw : w < 65536) :
    ((l.set i ((w >>> 8) % 256)).set j (w % 256)).getD i 0 = w >>> 8 ∧
    ((l.set i ((w >>> 8) % 256)).set j (w % 256)).getD j 0 = w % 256 := by
  have hshift : w >>> 8 = w / 256 := by
    rw [Nat.shiftRight_eq_div_pow]
  have hdiv : w >>> 8 < 256 := by omega
  constructor
  · rw [getD_set_ne _ _ _ _ (Ne.symm hij), getD_set_self l i _ (by omega)]
    exact Nat.mod_eq_of_lt hdiv
  · exact getD_set_self _ j _ (by simp [hlen]; omega)

/-- Reading back the 16-bit value recomposed from the two bytes written by
a 16-bit register write. -/
theorem pair_roundtrip_list (l : List Nat) (hlen : l.length = 16) (i j : Nat)
    (hij : i ≠ j) (hi : i < 16) (hj : j < 16) (w : Nat) (hw : w < 65536) :
    (((l.set i ((w >>> 8) % 256)).set j (w % 256)).getD i 0 <<< 8) |||
      ((l.set i ((w >>> 8) % 256)).set j (w % 256)).getD j 0 = w := by
  obtain ⟨l1, l2⟩ := pair_bytes_list l hlen i j hij hi hj w hw
  have hshift : w >>> 8 = w / 256 := by
    rw [Nat.shiftRight_eq_div_pow]
  rw [l1, l2, lor_bytes _ _ (Nat.mod_lt _ (by norm_num)), hshift]
  omega

/-- Writing any 16-bit register (PC, SP, or a composite view) succeeds and
reads back the written value. -/
theorem write_read_u16 (s : CPUState) (hlen : s.regs.length = 16) (reg : Register)
    (hreg : Register.PC.index ≤ reg.index) (w : Nat) (hw : w < 65536) :
    ∃ s2, RegisterFile.write_u16 s reg w = .ok s2 ∧
      RegisterFile.read_u16 s2 reg = .ok w := by
  cases reg with
  | IR => exact absurd hreg (by decide)
  | IE => exact absurd hreg (by decide)
  | A => exact absurd hreg (by decide)
  | F => exact absurd hreg (by decide)
  | B => exact absurd hreg (by decide)
  | C => exact absurd hreg (by decide)
  | D => exact absurd hreg (by decide)
  | E => exact absurd hreg (by decide)
  | H => exact absurd hreg (by decide)
  | L => exact absurd hreg (by decide)
  | W => exact absurd hreg (by decide)
  | Z => exact absurd hreg (by decide)
  | PC =>
    refine ⟨{ s with regs := (s.regs.set 13 ((w >>> 8) % 256)).set 12 (w % 256) }, rfl, ?_⟩
    have h : RegisterFile.read_u16
        { s with regs := (s.regs.set 13 ((w >>> 8) % 256)).set 12 (w % 256) } .PC =
        .ok ((((s.regs.set 13 ((w >>> 8) % 256)).set 12 (w % 256)).getD 13 0 <<< 8) |||
          ((s.regs.set 13 ((w >>> 8) % 256)).set 12 (w % 256)).getD 12 0) := rfl
    rw [h, pair_roundtrip_list s.regs hlen 13 12 (by omega) (by omega) (by omega) w hw]
  | SP =>
    refine ⟨{ s with regs := (s.regs.set 15 ((w >>> 8) % 256)).set 14 (w % 256) }, rfl, ?_⟩
    have h : RegisterFile.read_u16
        { s with regs := (s.regs.set 15 ((w >>> 8) % 256)).set 14 (w % 256) } .SP =
        .ok ((((s.regs.set 15 ((w >>> 8) % 256)).set 14 (w % 256)).getD 15 0 <<< 8) |||
          ((s.regs.set 15 ((w >>> 8) % 256)).set 14 (w % 256)).getD 14 0) := rfl
    rw [h, pair_roundtrip_list s.regs hlen 15 14 (by omega) (by omega) (by omega) w hw]
  | BC =>
    refine ⟨{ s with regs := (s.regs.set 4 ((w >>> 8) % 256)).set 5 (w % 256) }, rfl, ?_⟩
    have h : RegisterFile.read_u16
        { s with regs := (s.regs.set 4 ((w >>> 8) % 256)).set 5 (w % 256) } .BC =
        .ok ((((s.regs.set 4 ((w >>> 8) % 256)).set 5 (w % 256)).getD 4 0 <<< 8) |||
          ((s.regs.set 4 ((w >>> 8) % 256)).set 5 (w % 256)).getD 5 0) := rfl
    rw [h, pair_roundtrip_list s.regs hlen 4 5 (by omega) (by omega) (by omega) w hw]
  | DE =>
    refine ⟨{ s with regs := (s.regs.set 6 ((w >>> 8) % 256)).set 7 (w % 256) }, rfl, ?_⟩
    have h : RegisterFile.read_u16
        { s with regs := (s.regs.set 6 ((w >>> 8) % 256)).set 7 (w % 256) } .DE =
        .ok ((((s.regs.set 6 ((w >>> 8) % 256)).set 7 (w % 256)).getD 6 0 <<< 8) |||
          ((s.regs.set 6 ((w >>> 8) % 256)).set 7 (w % 256)).getD 7 0) := rfl
    rw [h, pair_roundtrip_list s.regs hlen 6 7 (by omega) (by omega) (by omega) w hw]
  | HL =>
    refine ⟨{ s with regs := (s.regs.set 8 ((w >>> 8) % 256)).set 9 (w % 256) }, rfl, ?_⟩
    have h : RegisterFile.read_u16
        { s with regs := (s.regs.set 8 ((w >>> 8) % 256)).set 9 (w % 256) } .HL =
        .ok ((((s.regs.set 8 ((w >>> 8) % 256)).set 9 (w % 256)).getD 8 0 <<< 8) |||
          ((s.regs.set 8 ((w >>> 8) % 256)).set 9 (w % 256)).getD 9 0) := rfl
    rw [h, pair_roundtrip_list s.regs hlen 8 9 (by omega) (by omega) (by omega) w hw]
  | WZ =>
    refine ⟨{ s with regs := (s.regs.set 10 ((w >>> 8) % 256)).set 11 (w % 256) }, rfl, ?_⟩
    have h : RegisterFile.read_u16
        { s with regs := (s.regs.set 10 ((w >>> 8) % 256)).set 11 (w % 256) } .WZ =
        .ok ((((s.regs.set 10 ((w >>> 8) % 256)).set 11 (w % 256)).getD 10 0 <<< 8) |||
          ((s.regs.set 10 ((w >>> 8) % 256)).set 11 (w % 256)).getD 11 0) := rfl
    rw [h, pair_roundtrip_list s.regs hlen 10 11 (by omega) (by omega) (by omega) w hw]

/-- Claim C2 (code bug): `decode` is claimed to accept every base-table
opcode, HALT = 0x76 included, and to fault only on unrecognized patterns;
in fact the `instruction_body_2 == 6` arm shadows the HALT arm, so 0x76
resolves to `LD(data_register(6))` and dies on the
`assert!(index < DATA_REGISTER_COUNT)`, and every arithmetic or load
opcode using A as the 3-bit source operand (e.g. 0x87 = ADD A,A and
0x78 = LD A,B) falls through to the unimplemented-instruction panic. -/
theorem C2_decode_faults_on_table_opcodes :
    decode (decode_state 0x76) = .error .assertionFailed ∧
    decode (decode_state 0x87) = .error .panicUnimplemented ∧
    decode (decode_state 0x78) = .error .panicUnimplemented := by
  refine ⟨rfl, rfl, rfl⟩

/-- Claim C3 (code bug): `decimal_adjust` on buffer 0x1A with N=false,
H=true, C=false is claimed to yield 0x20 with C still false; the code's
add-path bound check compares the whole buffer against 0x09 instead of
0x99, so it first adds 0x60 (setting C) and then 0x06, leaving 0x80 with
C=true. -/
theorem C3_daa_code_result :
    (ALU.decimal_adjust { CPU.new with
        buffer := 0x1A
        regs := CPU.new.regs.set Register.F.index 0b0100 }).map
      (fun s => (s.buffer, (RegisterFile.flags s).get_z, (RegisterFile.flags s).get_h,
        (RegisterFile.flags s).get_c)) = .ok (0x80, false, false, true) := rfl

/-- Claim C5 (code bug): `rotate_left(false)` is claimed to leave the 8-bit
left rotation in the buffer; the code combines with `&` instead of `|`
(`(buffer << 1) & replacement`), so rotating 0x01 yields 0x00 (with Z set)
instead of 0x02, and rotating 0x80 yields 0x00 instead of 0x01. -/
theorem C5_rotate_left_code_result :
    ((ALU.rotate_left { CPU.new with buffer := 0x01 } false).map
      (fun s => (s.buffer, (RegisterFile.flags s).get_z, (RegisterFile.flags s).get_c)) =
        .ok (0x00, true, false)) ∧
    ((ALU.rotate_left { CPU.new with buffer := 0x80 } false).map
      (fun s => (s.buffer, (RegisterFile.flags s).get_z, (RegisterFile.flags s).get_c)) =
        .ok (0x00, true, true)) := ⟨rfl, rfl⟩

/-- Claim C6 (code bug): the CB-prefixed decode is claimed to produce BIT
for 0x40-0x7F, RES for 0x80-0xBF and SET for 0xC0-0xFF, with bit indices
0-7; the `instruction_body_1 >= 0x4` arm catches every byte from 0x40 up,
so 0x80 (RES 0,B) decodes to BIT with bit index 8 and 0xC0 (SET 0,B)
decodes to BIT with bit index 16 - the RES/SET arms are unreachable and
the produced bit index ranges up to 23. -/
theorem C6_decode_cb_code_result :
    decode_cb (decode_state 0x80) = .ok (.BIT 8 .B) ∧
    decode_cb (decode_state 0xC0) = .ok (.BIT 16 .B) := ⟨rfl, rfl⟩

/-- Claim C8: from a state with no instruction in flight and IR = 0x21,
with the data bus supplying 0x35 during the first cycle and 0x00 during
the second, the load-16-bit-immediate-into-HL instruction completes in
exactly 3 `clock_cycle` calls (still in flight after cycles 1 and 2) and
leaves HL = 0x0035. -/
theorem C8_ld_hl_immediate : ld_hl_imm_scenario = .ok (true, true, true, 0x0035) := rfl

/-- Claim C9: for every 8-bit register tag, `read_data_bus` never faults:
it writes the latched data-bus value (0 when the bus is empty) into the
register and leaves the bus contents - and everything else - unchanged. -/
theorem C9_read_data_bus_total (s : CPUState) (r : Register)
    (h : r.index < Register.PC.index) :
    RegisterFile.read_data_bus s r =
      .ok { s with regs := s.regs.set r.index (s.data_bus.getD 0) } ∧
    (∀ v, s.data_bus = some v →
      RegisterFile.read_data_bus s r = .ok { s with regs := s.regs.set r.index v }) ∧
    (s.data_bus = none →
      RegisterFile.read_data_bus s r = .ok { s with regs := s.regs.set r.index 0 }) := by
  have hmain : RegisterFile.read_data_bus s r =
      .ok { s with regs := s.regs.set r.index (s.data_bus.getD 0) } := by
    unfold RegisterFile.read_data_bus
    exact write_u8_ok s r _ h
  refine ⟨hmain, fun v hv => ?_, fun hv => ?_⟩
  · rw [hmain, hv]
    exact rfl
  · rw [hmain, hv]
    exact rfl

/-- Witness for C9 at register B with the bus latched to 0x07. -/
theorem C9_read_data_bus_total_witness :
    Register.B.index < Register.PC.index ∧
      (RegisterFile.read_data_bus { CPU.new with data_bus := some 0x07 } .B =
        .ok { CPU.new with
              data_bus := some 0x07
              regs := CPU.new.regs.set Register.B.index 0x07 } ∧
      (∀ v, (some 0x07 : Option Nat) = some v →
        RegisterFile.read_data_bus { CPU.new with data_bus := some 0x07 } .B =
          .ok { CPU.new with
                data_bus := some 0x07
                regs := CPU.new.regs.set Register.B.index v }) ∧
      ((some 0x07 : Option Nat) = none →
        RegisterFile.read_data_bus { CPU.new with data_bus := some 0x07 } .B =
          .ok { CPU.new with
                data_bus := some 0x07
                regs := CPU.new.regs.set Register.B.index 0 })) :=
  ⟨by decide, C9_read_data_bus_total { CPU.new with data_bus := some 0x07 } .B (by decide)⟩

/-- Claim C4: for every composite 16-bit register (BC, DE, HL, WZ) and
every `v < 65536`, `write_u16` then `read_u16` returns `v`, and the two
constituent 8-bit registers read back exactly the high byte `v >>> 8` and
the low byte `v % 256`. -/
theorem C4_composite_roundtrip (s : CPUState) (hlen : s.regs.length = 16) (reg : Register)
    (hreg : reg = .BC ∨ reg = .DE ∨ reg = .HL ∨ reg = .WZ) (v : Nat) (hv : v < 65536) :
    ∃ s2, RegisterFile.write_u16 s reg v = .ok s2 ∧
      RegisterFile.read_u16 s2 reg = .ok v ∧
      RegisterFile.read_u8 s2
        ((REGISTER_PAIRS.getD (reg.index - Register.BC.index) (.B, .C, .BC)).1) =
        .ok (v >>> 8) ∧
      RegisterFile.read_u8 s2
        ((REGISTER_PAIRS.getD (reg.index - Register.BC.index) (.B, .C, .BC)).2.1) =
        .ok (v % 256) := by
  rcases hreg with rfl | rfl | rfl | rfl
  · refine ⟨{ s with regs := (s.regs.set 4 ((v >>> 8) % 256)).set 5 (v % 256) }, rfl, ?_, ?_, ?_⟩
    · have h : RegisterFile.read_u16
          { s with regs := (s.regs.set 4 ((v >>> 8) % 256)).set 5 (v % 256) } .BC =
          .ok ((((s.regs.set 4 ((v >>> 8) % 256)).set 5 (v % 256)).getD 4 0 <<< 8) |||
            ((s.regs.set 4 ((v >>> 8) % 256)).set 5 (v % 256)).getD 5 0) := rfl
      rw [h, pair_roundtrip_list s.regs hlen 4 5 (by omega) (by omega) (by omega) v hv]
    · show RegisterFile.read_u8
          { s with regs := (s.regs.set 4 ((v >>> 8) % 256)).set 5 (v % 256) } .B = .ok (v >>> 8)
      have h : RegisterFile.read_u8
          { s with regs := (s.regs.set 4 ((v >>> 8) % 256)).set 5 (v % 256) } .B =
          .ok (((s.regs.set 4 ((v >>> 8) % 256)).set 5 (v % 256)).getD 4 0) := rfl
      rw [h, (pair_bytes_list s.regs hlen 4 5 (by omega) (by omega) (by omega) v hv).1]
    · show RegisterFile.read_u8
          { s with regs := (s.regs.set 4 ((v >>> 8) % 256)).set 5 (v % 256) } .C = .ok (v % 256)
      have h : RegisterFile.read_u8
          { s with regs := (s.regs.set 4 ((v >>> 8) % 256)).set 5 (v % 256) } .C =
          .ok (((s.regs.set 4 ((v >>> 8) % 256)).set 5 (v % 256)).getD 5 0) := rfl
      rw [h, (pair_bytes_list s.regs hlen 4 5 (by omega) (by omega) (by omega) v hv).2]
  · refine ⟨{ s with regs := (s.regs.set 6 ((v >>> 8) % 256)).set 7 (v % 256) }, rfl, ?_, ?_, ?_⟩
    · have h : RegisterFile.read_u16
          { s with regs := (s.regs.set 6 ((v >>> 8) % 256)).set 7 (v % 256) } .DE =
          .ok ((((s.regs.set 6 ((v >>> 8) % 256)).set 7 (v % 256)).getD 6 0 <<< 8) |||
            ((s.regs.set 6 ((v >>> 8) % 256)).set 7 (v % 256)).getD 7 0) := rfl
      rw [h, pair_roundtrip_list s.regs hlen 6 7 (by omega) (by omega) (by omega) v hv]
    · show RegisterFile.read_u8
          { s with regs := (s.regs.set 6 ((v >>> 8) % 256)).set 7 (v % 256) } .D = .ok (v >>> 8)
      have h : RegisterFile.read_u8
          { s with regs := (s.regs.set 6 ((v >>> 8) % 256)).set 7 (v % 256) } .D =
          .ok (((s.regs.set 6 ((v >>> 8) % 256)).set 7 (v % 256)).getD 6 0) := rfl
      rw [h, (pair_bytes_list s.regs hlen 6 7 (by omega) (by omega) (by omega) v hv).1]
    · show RegisterFile.read_u8
          { s with regs := (s.regs.set 6 ((v >>> 8) % 256)).set 7 (v % 256) } .E = .ok (v % 256)
      have h : RegisterFile.read_u8
          { s with regs := (s.regs.set 6 ((v >>> 8) % 256)).set 7 (v % 256) } .E =
          .ok (((s.regs.set 6 ((v >>> 8) % 256)).set 7 (v % 256)).getD 7 0) := rfl
      rw [h, (pair_bytes_list s.regs hlen 6 7 (by omega) (by omega) (by omega) v hv).2]
  · refine ⟨{ s with regs := (s.regs.set 8 ((v >>> 8) % 256)).set 9 (v % 256) }, rfl, ?_, ?_, ?_⟩
    · have h : RegisterFile.read_u16
          { s with regs := (s.regs.set 8 ((v >>> 8) % 256)).set 9 (v % 256) } .HL =
          .ok ((((s.regs.set 8 ((v >>> 8) % 256)).set 9 (v % 256)).getD 8 0 <<< 8) |||
            ((s.regs.set 8 ((v >>> 8) % 256)).set 9 (v % 256)).getD 9 0) := rfl
      rw [h, pair_roundtrip_list s.regs hlen 8 9 (by omega) (by omega) (by omega) v hv]
    · show RegisterFile.read_u8
          { s with regs := (s.regs.set 8 ((v >>> 8) % 256)).set 9 (v % 256) } .H = .ok (v >>> 8)
      have h : RegisterFile.read_u8
          { s with regs := (s.regs.set 8 ((v >>> 8) % 256)).set 9 (v % 256) } .H =
          .ok (((s.regs.set 8 ((v >>> 8) % 256)).set 9 (v % 256)).getD 8 0) := rfl
      rw [h, (pair_bytes_list s.regs hlen 8 9 (by omega) (by omega) (by omega) v hv).1]
    · show RegisterFile.read_u8
          { s with regs := (s.regs.set 8 ((v >>> 8) % 256)).set 9 (v % 256) } .L = .ok (v % 256)
      have h : RegisterFile.read_u8
          { s with regs := (s.regs.set 8 ((v >>> 8) % 256)).set 9 (v % 256) } .L =
          .ok (((s.regs.set 8 ((v >>> 8) % 256)).set 9 (v % 256)).getD 9 0) := rfl
      rw [h, (pair_bytes_list s.regs hlen 8 9 (by omega) (by omega) (by omega) v hv).2]
  · refine ⟨{ s with regs := (s.regs.set 10 ((v >>> 8) % 256)).set 11 (v % 256) }, rfl,
      ?_, ?_, ?_⟩
    · have h : RegisterFile.read_u16
          { s with regs := (s.regs.set 10 ((v >>> 8) % 256)).set 11 (v % 256) } .WZ =
          .ok ((((s.regs.set 10 ((v >>> 8) % 256)).set 11 (v % 256)).getD 10 0 <<< 8) |||
            ((s.regs.set 10 ((v >>> 8) % 256)).set 11 (v % 256)).getD 11 0) := rfl
      rw [h, pair_roundtrip_list s.regs hlen 10 11 (by omega) (by omega) (by omega) v hv]
    · show RegisterFile.read_u8
          { s with regs := (s.regs.set 10 ((v >>> 8) % 256)).set 11 (v % 256) } .W = .ok (v >>> 8)
      have h : RegisterFile.read_u8
          { s with regs := (s.regs.set 10 ((v >>> 8) % 256)).set 11 (v % 256) } .W =
          .ok (((s.regs.set 10 ((v >>> 8) % 256)).set 11 (v % 256)).getD 10 0) := rfl
      rw [h, (pair_bytes_list s.regs hlen 10 11 (by omega) (by omega) (by omega) v hv).1]
    · show RegisterFile.read_u8
          { s with regs := (s.regs.set 10 ((v >>> 8) % 256)).set 11 (v % 256) } .Z = .ok (v % 256)
      have h : RegisterFile.read_u8
          { s with regs := (s.regs.set 10 ((v >>> 8) % 256)).set 11 (v % 256) } .Z =
          .ok (((s.regs.set 10 ((v >>> 8) % 256)).set 11 (v % 256)).getD 11 0) := rfl
      rw [h, (pair_bytes_list s.regs hlen 10 11 (by omega) (by omega) (by omega) v hv).2]

/-- Witness for C4 at the zero-initialized CPU, register BC, v = 0xABCD. -/
theorem C4_composite_roundtrip_witness :
    CPU.new.regs.length = 16 ∧
      (Register.BC = Register.BC ∨ Register.BC = .DE ∨ Register.BC = .HL ∨
        Register.BC = .WZ) ∧ 0xABCD < 65536 ∧
      (∃ s2, RegisterFile.write_u16 CPU.new .BC 0xABCD = .ok s2 ∧
        RegisterFile.read_u16 s2 .BC = .ok 0xABCD ∧
        RegisterFile.read_u8 s2
          ((REGISTER_PAIRS.getD (Register.BC.index - Register.BC.index) (.B, .C, .BC)).1) =
          .ok (0xABCD >>> 8) ∧
        RegisterFile.read_u8 s2
          ((REGISTER_PAIRS.getD (Register.BC.index - Register.BC.index) (.B, .C, .BC)).2.1) =
          .ok (0xABCD % 256)) :=
  ⟨by decide, Or.inl rfl, by decide,
    C4_composite_roundtrip CPU.new (by decide) .BC (Or.inl rfl) 0xABCD (by decide)⟩

/-- Claim C10: the IDU's arithmetic is not modular. With the address bus
latched to `a < 65536`: below 0xFFFF, `increment_into` writes `a + 1`
(read back from the register); above 0x0000, `decrement_into` writes
`a - 1`; at the boundaries the unchecked u16 arithmetic is the overflow
fault instead of wrapping. `adjust_u8_into` behaves the same on the
truncated byte `a % 256` at 0xFF (+1) and 0x00 (-1). -/
theorem C10_idu_not_modular (s : CPUState) (hlen : s.regs.length = 16) (reg : Register)
    (hreg : Register.PC.index ≤ reg.index) (a : Nat) (hbus : s.address_bus = some a)
    (ha : a < 65536) :
    (a < 0xFFFF → ∃ s2, IDU.increment_into s reg = .ok s2 ∧
        RegisterFile.read_u16 s2 reg = .ok (a + 1)) ∧
    (0 < a → ∃ s2, IDU.decrement_into s reg = .ok s2 ∧
        RegisterFile.read_u16 s2 reg = .ok (a - 1)) ∧
    (a = 0xFFFF → IDU.increment_into s reg = .error .overflow) ∧
    (a = 0 → IDU.decrement_into s reg = .error .overflow) ∧
    (∀ r8 : Register, r8.index < Register.PC.index →
      (a % 256 < 255 → IDU.adjust_u8_into s r8 1 =
        .ok { s with regs := s.regs.set r8.index (a % 256 + 1) }) ∧
      (a % 256 = 255 → IDU.adjust_u8_into s r8 1 = .error .overflow) ∧
      (0 < a % 256 → IDU.adjust_u8_into s r8 (-1) =
        .ok { s with regs := s.regs.set r8.index (a % 256 - 1) }) ∧
      (a % 256 = 0 → IDU.adjust_u8_into s r8 (-1) = .error .overflow)) := by
  refine ⟨?_, ?_, ?_, ?_, ?_⟩
  · intro hlt
    obtain ⟨s2, hw2, hr2⟩ := write_read_u16 s hlen reg hreg (a + 1) (by omega)
    refine ⟨s2, ?_, hr2⟩
    simp only [IDU.increment_into, hbus, Option.getD_some]
    rw [if_pos hlt]
    exact hw2
  · intro hgt
    obtain ⟨s2, hw2, hr2⟩ := write_read_u16 s hlen reg hreg (a - 1) (by omega)
    refine ⟨s2, ?_, hr2⟩
    simp only [IDU.decrement_into, hbus, Option.getD_some]
    rw [if_pos hgt]
    exact hw2
  · intro heq
    simp only [IDU.increment_into, hbus, Option.getD_some, heq]
    rfl
  · intro heq
    simp only [IDU.decrement_into, hbus, Option.getD_some, heq]
    rfl
  · intro r8 h8
    refine ⟨?_, ?_, ?_, ?_⟩
    · intro hlt255
      have hunf : IDU.adjust_u8_into s r8 1 =
          if a % 256 = 255 then .error .overflow
          else RegisterFile.write_u8 s r8 (a % 256 + 1) := by
        simp [IDU.adjust_u8_into, hbus]
      rw [hunf, if_neg (by omega : ¬ a % 256 = 255)]
      exact write_u8_ok s r8 (a % 256 + 1) h8
    · intro heq255
      have hunf : IDU.adjust_u8_into s r8 1 =
          if a % 256 = 255 then .error .overflow
          else RegisterFile.write_u8 s r8 (a % 256 + 1) := by
        simp [IDU.adjust_u8_into, hbus]
      rw [hunf, if_pos heq255]
    · intro hgt0
      have hunf : IDU.adjust_u8_into s r8 (-1) =
          if a % 256 = 0 then .error .overflow
          else RegisterFile.write_u8 s r8 (a % 256 - 1) := by
        simp [IDU.adjust_u8_into, hbus]
      rw [hunf, if_neg (by omega : ¬ a % 256 = 0)]
      exact write_u8_ok s r8 (a % 256 - 1) h8
    · intro heq0
      have hunf : IDU.adjust_u8_into s r8 (-1) =
          if a % 256 = 0 then .error .overflow
          else RegisterFile.write_u8 s r8 (a % 256 - 1) := by
        simp [IDU.adjust_u8_into, hbus]
      rw [hunf, if_pos heq0]

/-- Witness for C10 at the zero-initialized CPU with the address bus
latched to 0x1234, register HL. -/
theorem C10_idu_not_modular_witness :
    ({ CPU.new with address_bus := some 0x1234 } : CPUState).regs.length = 16 ∧
    Register.PC.index ≤ Register.HL.index ∧
    ({ CPU.new with address_bus := some 0x1234 } : CPUState).address_bus = some 0x1234 ∧
    0x1234 < 65536 ∧
    ((0x1234 < 0xFFFF → ∃ s2,
        IDU.increment_into { CPU.new with address_bus := some 0x1234 } .HL = .ok s2 ∧
        RegisterFile.read_u16 s2 .HL = .ok (0x1234 + 1)) ∧
     (0 < 0x1234 → ∃ s2,
        IDU.decrement_into { CPU.new with address_bus := some 0x1234 } .HL = .ok s2 ∧
        RegisterFile.read_u16 s2 .HL = .ok (0x1234 - 1)) ∧
     (0x1234 = 0xFFFF →
        IDU.increment_into { CPU.new with address_bus := some 0x1234 } .HL =
          .error .overflow) ∧
     (0x1234 = 0 →
        IDU.decrement_into { CPU.new with address_bus := some 0x1234 } .HL =
          .error .overflow) ∧
     (∀ r8 : Register, r8.index < Register.PC.index →
       (0x1234 % 256 < 255 →
         IDU.adjust_u8_into { CPU.new with address_bus := some 0x1234 } r8 1 =
           .ok { CPU.new with
                 address_bus := some 0x1234
                 regs := CPU.new.regs.set r8.index (0x1234 % 256 + 1) }) ∧
       (0x1234 % 256 = 255 →
         IDU.adjust_u8_into { CPU.new with address_bus := some 0x1234 } r8 1 =
           .error .overflow) ∧
       (0 < 0x1234 % 256 →
         IDU.adjust_u8_into { CPU.new with address_bus := some 0x1234 } r8 (-1) =
           .ok { CPU.new with
                 address_bus := some 0x1234
                 regs := CPU.new.regs.set r8.index (0x1234 % 256 - 1) }) ∧
       (0x1234 % 256 = 0 →
         IDU.adjust_u8_into { CPU.new with address_bus := some 0x1234 } r8 (-1) =
           .error .overflow))) :=
  ⟨by decide, by decide, rfl, by decide,
    C10_idu_not_modular { CPU.new with address_bus := some 0x1234 } (by decide) .HL
      (by decide) 0x1234 rfl (by decide)⟩

/-- Claim C7: for every conditional-branch variant and every flag state,
the cycle count from the first micro-step to clearing
`current_instruction` is 3 taken / 2 not-taken for JR cc, 4/3 for JP cc,
6/3 for CALL cc and 5/2 for RET cc - the not-taken path always strictly
shorter. -/
theorem C7_conditional_branch_cycles :
    ∀ value flag zf nf hf cf : Bool,
      completionCycles 8 0 (condState (.JR_CC value flag) zf nf hf cf) =
        some (if condMet value flag zf cf then 3 else 2) ∧
      completionCycles 8 0 (condState (.JP_CCI value flag) zf nf hf cf) =
        some (if condMet value flag zf cf then 4 else 3) ∧
      completionCycles 8 0 (condState (.CALL_CC value flag) zf nf hf cf) =
        some (if condMet value flag zf cf then 6 else 3) ∧
      completionCycles 8 0 (condState (.RET_CC value flag) zf nf hf cf) =
        some (if condMet value flag zf cf then 5 else 2) ∧
      2 < 3 ∧ 3 < 4 ∧ 3 < 6 ∧ 2 < 5 := by
  decide

end GB
